import Mathlib

/-
  Shallow embedding of the EventLedger webhook ingestion and subscription
  lifecycle engine (src/app/models.py, src/app/services.py, src/app/api.py).

  Conventions of the embedding:
  * All timestamps are naive UTC, modelled as `Int` epoch seconds.
  * The SQL session is modelled as an explicit `AppState`; a service
    function returns the state as committed at its end.  Paths of the
    source that raise an exception after committing carry the committed
    state in the `.error` payload.
  * `payload_raw` is stored in already-parsed form (`RawPayload`):
    `json.loads` plus the pydantic validation of the two payload models
    are represented by the `RawPayload` / `PayloadData` structure, and
    `current_period_end` values (numeric epoch or ISO-8601 string) are
    represented by their normalized epoch value (`PeriodEndValue.num`).
  * `uuid`-generated opaque identifiers (`cus_<hex>`, `sub_<hex>`) are
    replaced by deterministic counters; no claim depends on their shape.
  * The model is sequential, so the `IntegrityError` re-lookup race branch
    of `process_webhook` is unreachable and not modelled.
-/

namespace EventLedger

/-- Subscription lifecycle status (models.py, SubscriptionStatus). -/
inductive SubscriptionStatus
  | active
  | canceled
  | past_due
  | pending_activation
  | expired
deriving DecidableEq, Repr

/-- Payment status (models.py, PaymentStatus). -/
inductive PaymentStatus
  | pending
  | approved
  | refused
deriving DecidableEq, Repr

/-- Webhook event processing status (models.py, WebhookProcessingStatus). -/
inductive WebhookProcessingStatus
  | received
  | processed
  | failed
  | ignored
deriving DecidableEq, Repr

/-- Customer row (models.py, Customer). -/
structure Customer where
  id : Nat
  provider_customer_id : Option String
  email : String
deriving DecidableEq, Repr

/-- Subscription row (models.py, Subscription). -/
structure Subscription where
  id : Nat
  customer_id : Nat
  plan_id : Nat
  status : SubscriptionStatus
  current_period_end : Int
  cancel_at_period_end : Bool
  past_due_since : Option Int
  canceled_at : Option Int
  expired_at : Option Int
  provider_subscription_id : String
  access_revoked : Bool
  updated_at : Int
deriving DecidableEq, Repr

/-- Payment row (models.py, Payment). -/
structure Payment where
  customer_id : Nat
  subscription_id : Nat
  status : PaymentStatus
  amount : Int
  currency : String
  provider_payment_id : String
  provider_invoice_id : String
  processed_at : Int
  provider : String
deriving DecidableEq, Repr

/-- Parsed `current_period_end` of a webhook payload.  Numeric epoch values
and ISO-8601 strings both normalize to an epoch value (`num`); an absent
value makes `_parse_period_end` fall back to `now` (`missing`). -/
inductive PeriodEndValue
  | num (t : Int)
  | missing
deriving DecidableEq, Repr

/-- The fields of a `payload_json` object used by the two payload models
(models.py, PaymentSucceededPayload / InvoicePaymentFailedPayload; the two
models have identical fields).  The required provider ids are `Option`s so
that a schema-violating payload (pydantic ValidationError) is
representable. -/
structure PayloadData where
  provider_customer_id : Option String
  provider_subscription_id : Option String
  amount : Int
  currency : String
  current_period_end : PeriodEndValue
  payment_id : Option String
  invoice_id : Option String
deriving DecidableEq, Repr

/-- The raw body of a stored event, in parsed form: either the resolved
`payload_json` object, or a body whose `payload_json` is not an object
(which makes `dispatch_event` raise InvalidPayloadError). -/
inductive RawPayload
  | notObject
  | object (data : PayloadData)
deriving DecidableEq, Repr

/-- Webhook event row (models.py, WebhookEvent). -/
structure WebhookEvent where
  id : Nat
  provider : String
  event_id : String
  event_type : String
  payload_raw : RawPayload
  signature : String
  signature_timestamp : Int
  processed_at : Option Int
  attempt_count : Nat
  next_retry_at : Option Int
  needs_attention : Bool
  processing_status : WebhookProcessingStatus
  error_message : Option String
deriving DecidableEq, Repr

/-- The four process-wide metric counters (services.py, METRICS). -/
structure Metrics where
  webhook_processed : Nat
  webhook_failed : Nat
  webhook_ignored : Nat
  webhook_replayed : Nat
deriving DecidableEq, Repr

/-- The persistent store plus the in-process counters.  Lists keep their
insertion order (ascending autoincrement ids). -/
structure AppState where
  customers : List Customer
  subscriptions : List Subscription
  payments : List Payment
  events : List WebhookEvent
  metrics : Metrics
  next_customer_id : Nat
  next_subscription_id : Nat
  next_event_id : Nat
deriving DecidableEq, Repr

/-- Parsed webhook body fields used by `process_webhook`
(models.py, WebhookEventIn; the `payload_json` member is carried by
`VerifiedWebhookData.raw_body`, which is what `process_webhook`
persists and `dispatch_event` re-parses). -/
structure WebhookEventIn where
  event_id : String
  event_type : String
deriving DecidableEq, Repr

/-- Output of the request gatekeeper (models.py, VerifiedWebhookData). -/
structure VerifiedWebhookData where
  raw_body : RawPayload
  signature : String
  timestamp : Int
deriving DecidableEq, Repr

/-- Subscription-creation input (models.py, SubscriptionCreateIn). -/
structure SubscriptionCreateIn where
  customer_id : Option Nat
  customer_email : Option String
  plan_id : Nat
deriving DecidableEq, Repr

/-- Errors a handler or the dispatcher can raise: InvalidPayloadError, or a
pydantic ValidationError from `model_validate` (caught by the generic
`except Exception` arm of the callers). -/
inductive DispatchError
  | invalidPayload (msg : String)
  | validationError (msg : String)
deriving DecidableEq, Repr

/-- The `str(exc)` reason recorded by `_mark_failed`. -/
def DispatchError.message : DispatchError → String
  | .invalidPayload m => m
  | .validationError m => m

/-- Errors `process_webhook` raises to the HTTP layer after committing. -/
inductive ProcessError
  | replayAttack (msg : String)
  | dispatchFailed (e : DispatchError)
deriving DecidableEq, Repr

/-- Translation of `_parse_period_end` (services.py): a present value
normalizes to its epoch seconds, an absent value falls back to `utcnow`. -/
def parse_period_end (now : Int) : PeriodEndValue → Int
  | .num t => t
  | .missing => now

/-- Python `str(a or b)` over an optional string: `None` and the empty
string are falsy. -/
def py_or_str (a : Option String) (b : String) : String :=
  match a with
  | some s => if s = "" then b else s
  | none => b

/-- Write back a mutated subscription row (ORM object mutation plus
`session.add`): the row with the same primary key is replaced. -/
def update_subscription (st : AppState) (s : Subscription) : AppState :=
  { st with subscriptions := st.subscriptions.map (fun t => if t.id = s.id then s else t) }

/-- Write back a mutated webhook event row. -/
def store_event (st : AppState) (e : WebhookEvent) : AppState :=
  { st with events := st.events.map (fun t => if t.id = e.id then e else t) }

/-- Increment METRICS["webhook_failed"]. -/
def bump_failed (st : AppState) : AppState :=
  { st with metrics := { st.metrics with webhook_failed := st.metrics.webhook_failed + 1 } }

/-- Increment METRICS["webhook_processed"]. -/
def bump_processed (st : AppState) : AppState :=
  { st with metrics := { st.metrics with webhook_processed := st.metrics.webhook_processed + 1 } }

/-- Increment METRICS["webhook_ignored"]. -/
def bump_ignored (st : AppState) : AppState :=
  { st with metrics := { st.metrics with webhook_ignored := st.metrics.webhook_ignored + 1 } }

/-- Increment METRICS["webhook_replayed"]. -/
def bump_replayed (st : AppState) : AppState :=
  { st with metrics := { st.metrics with webhook_replayed := st.metrics.webhook_replayed + 1 } }

/-- Translation of `_mark_failed` (services.py, lines 241-248): increment
`attempt_count`, schedule the retry with the capped linear backoff computed
from the incremented count, derive `needs_attention`, and stamp the failure.
The `METRICS["webhook_failed"]` increment done by the source function is
applied at each call site via `bump_failed`. -/
def mark_failed (now : Int) (ev : WebhookEvent) (msg : String) : WebhookEvent :=
  let ac := ev.attempt_count + 1
  { ev with
    attempt_count := ac
    next_retry_at := some (now + min (300 * (ac : Int)) 3600)
    needs_attention := decide (3 ≤ ac)
    processing_status := .failed
    processed_at := some now
    error_message := some msg }

/-- Append a fresh Payment row (handler tail, `session.add(payment)`). -/
def add_payment (st : AppState) (p : Payment) : AppState :=
  { st with payments := st.payments ++ [p] }

/-- The event marked stale by the stale-event guard of the two handlers. -/
def stale_ignored_event (now : Int) (ev : WebhookEvent) : WebhookEvent :=
  { ev with
    processing_status := .ignored
    processed_at := some now
    error_message := some "stale event ignored" }

/-- Subscription update of the non-stale `payment.succeeded` branch:
advance from `pending_activation`/`past_due` to `active`, clear the
cancellation, expiry, dunning and revocation markers, and move the period
end forward. -/
def advance_subscription (now period_end : Int) (subscription : Subscription) : Subscription :=
  { subscription with
    status := if subscription.status = .pending_activation ∨ subscription.status = .past_due
              then SubscriptionStatus.active else subscription.status
    canceled_at := none
    expired_at := none
    current_period_end := period_end
    past_due_since := none
    access_revoked := false
    updated_at := now }

/-- Subscription update of the non-stale `invoice.payment_failed` branch:
an active subscription enters past_due with `past_due_since = now`; others
only get `updated_at` stamped. -/
def dunning_subscription (now : Int) (subscription : Subscription) : Subscription :=
  if subscription.status = .active then
    { subscription with
      status := SubscriptionStatus.past_due
      past_due_since := some now
      updated_at := now }
  else { subscription with updated_at := now }

/-- The Payment row a handler appends, with the status it passes in. -/
def handler_payment (now : Int) (stat : PaymentStatus) (customer : Customer)
    (subscription : Subscription) (ev : WebhookEvent) (pd : PayloadData) : Payment :=
  { customer_id := customer.id
    subscription_id := subscription.id
    status := stat
    amount := pd.amount
    currency := pd.currency
    provider_payment_id := py_or_str pd.payment_id ev.event_id
    provider_invoice_id := py_or_str pd.invoice_id ""
    processed_at := now
    provider := ev.provider }

/-- Translation of `_handle_payment_succeeded` (services.py): validate the
payload, resolve customer and subscription, ignore stale events, otherwise
advance the subscription and append an approved Payment row.  Every raise
of the source occurs before any session mutation, so each `.error` carries
the unmodified state. -/
def handle_payment_succeeded (now : Int) (st : AppState) (ev : WebhookEvent)
    (pd : PayloadData) : Except (AppState × DispatchError) (AppState × WebhookEvent) :=
  match pd.provider_customer_id, pd.provider_subscription_id with
  | none, _ => .error (st, .validationError "validation error for PaymentSucceededPayload")
  | some _, none => .error (st, .validationError "validation error for PaymentSucceededPayload")
  | some pcid, some psid =>
    match st.customers.find? (fun c => decide (c.provider_customer_id = some pcid)) with
    | none => .error (st, .invalidPayload "provider_customer_id not found")
    | some customer =>
      match st.subscriptions.find? (fun s => decide (s.provider_subscription_id = psid)) with
      | none => .error (st, .invalidPayload "provider_subscription_id not found")
      | some subscription =>
        if subscription.customer_id ≠ customer.id then
          .error (st, .invalidPayload "provider_subscription_id belongs to a different customer_id")
        else if parse_period_end now pd.current_period_end < subscription.current_period_end then
          .ok (st, stale_ignored_event now ev)
        else
          .ok (add_payment
                (update_subscription st
                  (advance_subscription now (parse_period_end now pd.current_period_end)
                    subscription))
                (handler_payment now .approved customer subscription ev pd), ev)

/-- Translation of `_handle_invoice_payment_failed` (services.py): same
resolution and stale guard; an active subscription becomes past_due with
`past_due_since = now`, and a refused Payment row is appended. -/
def handle_invoice_payment_failed (now : Int) (st : AppState) (ev : WebhookEvent)
    (pd : PayloadData) : Except (AppState × DispatchError) (AppState × WebhookEvent) :=
  match pd.provider_customer_id, pd.provider_subscription_id with
  | none, _ => .error (st, .validationError "validation error for InvoicePaymentFailedPayload")
  | some _, none => .error (st, .validationError "validation error for InvoicePaymentFailedPayload")
  | some pcid, some psid =>
    match st.customers.find? (fun c => decide (c.provider_customer_id = some pcid)) with
    | none => .error (st, .invalidPayload "provider_customer_id not found")
    | some customer =>
      match st.subscriptions.find? (fun s => decide (s.provider_subscription_id = psid)) with
      | none => .error (st, .invalidPayload "provider_subscription_id not found")
      | some subscription =>
        if subscription.customer_id ≠ customer.id then
          .error (st, .invalidPayload "provider_subscription_id belongs to a different customer_id")
        else if parse_period_end now pd.current_period_end < subscription.current_period_end then
          .ok (st, stale_ignored_event now ev)
        else
          .ok (add_payment
                (update_subscription st (dunning_subscription now subscription))
                (handler_payment now .refused customer subscription ev pd), ev)

/-- Translation of `_handle_unknown_event` (services.py). -/
def handle_unknown_event (now : Int) (st : AppState) (ev : WebhookEvent) :
    AppState × WebhookEvent :=
  (st, { ev with processing_status := .ignored, processed_at := some now })

/-- The unconditional success stamp of the dispatcher (services.py, lines
202-203): `processing_status = processed`, `processed_at = now`. -/
def processed_event (now : Int) (ev : WebhookEvent) : WebhookEvent :=
  { ev with
    processing_status := WebhookProcessingStatus.processed
    processed_at := some now }

/-- Translation of `dispatch_event` (services.py, lines 188-203): parse the
raw body, route by `event_type`, and on handler return without raising set
`processing_status = processed` and `processed_at = now` (for an unknown
event type the function returns right after `_handle_unknown_event`,
before that overwrite). -/
def dispatch_event (now : Int) (st : AppState) (ev : WebhookEvent) :
    Except (AppState × DispatchError) (AppState × WebhookEvent) :=
  match ev.payload_raw with
  | .notObject => .error (st, .invalidPayload "payload_json must be an object")
  | .object pd =>
    if ev.event_type = "payment.succeeded" then
      match handle_payment_succeeded now st ev pd with
      | .error e => .error e
      | .ok (st2, ev2) => .ok (st2, processed_event now ev2)
    else if ev.event_type = "invoice.payment_failed" then
      match handle_invoice_payment_failed now st ev pd with
      | .error e => .error e
      | .ok (st2, ev2) => .ok (st2, processed_event now ev2)
    else
      .ok (handle_unknown_event now st ev)

/-- Translation of `_get_existing_event` (services.py). -/
def find_existing_event (st : AppState) (provider event_id : String) : Option WebhookEvent :=
  st.events.find? (fun e => decide (e.provider = provider ∧ e.event_id = event_id))

/-- The clearing of the retry bookkeeping performed after a successful
re-dispatch of a stored event (services.py, lines 290-292, 406-408 and
431-433). -/
def retry_cleared_event (ev : WebhookEvent) : WebhookEvent :=
  { ev with next_retry_at := none, needs_attention := false, error_message := none }

/-- Translation of `_handle_existing_event` (services.py, lines 267-307):
replay checks, idempotent return of terminal events, re-dispatch of failed
events.  Committed state travels in both the `.ok` and the `.error`
payload. -/
def handle_existing_event (now : Int) (st : AppState) (ev : WebhookEvent)
    (verified : VerifiedWebhookData) :
    Except (AppState × ProcessError) (AppState × WebhookEvent) :=
  if verified.timestamp ≠ ev.signature_timestamp then
    .error (store_event (bump_failed st) (mark_failed now ev "replay timestamp mismatch"),
            .replayAttack "replay timestamp mismatch")
  else if verified.signature ≠ ev.signature then
    .error (store_event (bump_failed st) (mark_failed now ev "replay signature mismatch"),
            .replayAttack "replay signature mismatch")
  else if ev.processing_status = .processed ∨ ev.processing_status = .ignored then
    .ok (bump_replayed st, ev)
  else if ev.processing_status = .failed then
    match dispatch_event now st ev with
    | .ok (st2, ev2) =>
      .ok (store_event st2 (retry_cleared_event ev2), retry_cleared_event ev2)
    | .error (st2, err) =>
      .error (store_event (bump_failed st2) (mark_failed now ev err.message),
              .dispatchFailed err)
  else
    .ok (st, ev)

/-- The fresh event row inserted on first receipt (services.py, lines
315-324): `attempt_count = 1`, status `received`. -/
def fresh_event (st : AppState) (provider : String) (webhook : WebhookEventIn)
    (verified : VerifiedWebhookData) : WebhookEvent :=
  { id := st.next_event_id
    provider := provider
    event_id := webhook.event_id
    event_type := webhook.event_type
    payload_raw := verified.raw_body
    signature := verified.signature
    signature_timestamp := verified.timestamp
    processed_at := none
    attempt_count := 1
    next_retry_at := none
    needs_attention := false
    processing_status := .received
    error_message := none }

/-- Insert (flush) of a freshly built event row. -/
def insert_event (st : AppState) (ev : WebhookEvent) : AppState :=
  { st with events := st.events ++ [ev], next_event_id := st.next_event_id + 1 }

/-- The metric bump on a successful first dispatch or sweep re-dispatch:
`webhook_ignored` for an event left `ignored`, else `webhook_processed`. -/
def bump_outcome (st : AppState) (ev : WebhookEvent) : AppState :=
  if ev.processing_status = .ignored then bump_ignored st else bump_processed st

/-- The clearing of the retry bookkeeping on the first-delivery success
path (services.py, lines 349-350): unlike the re-dispatch paths it leaves
`error_message` untouched. -/
def first_cleared_event (ev : WebhookEvent) : WebhookEvent :=
  { ev with next_retry_at := none, needs_attention := false }

/-- Translation of `process_webhook` (services.py, lines 310-364): look up
the idempotency row, else insert a fresh event, dispatch it, and commit
either the success updates or the `_mark_failed` updates.  The source
performs no rollback in the exception arms: the session as mutated so far
is committed together with the failure marking. -/
def process_webhook (now : Int) (st : AppState) (provider : String)
    (webhook : WebhookEventIn) (verified : VerifiedWebhookData) :
    Except (AppState × ProcessError) (AppState × WebhookEvent) :=
  match find_existing_event st provider webhook.event_id with
  | some existing => handle_existing_event now st existing verified
  | none =>
    match dispatch_event now (insert_event st (fresh_event st provider webhook verified))
        (fresh_event st provider webhook verified) with
    | .ok (st2, ev2) =>
      .ok (store_event (bump_outcome st2 ev2) (first_cleared_event ev2),
           first_cleared_event ev2)
    | .error (st2, err) =>
      .error (store_event (bump_failed st2)
          (mark_failed now (fresh_event st provider webhook verified) err.message),
        .dispatchFailed err)

/-- Committed state of a `process_webhook` call (both outcome arms of the
source commit before returning or re-raising). -/
def process_webhook_commit (now : Int) (st : AppState) (provider : String)
    (webhook : WebhookEventIn) (verified : VerifiedWebhookData) : AppState :=
  match process_webhook now st provider webhook verified with
  | .ok (st2, _) => st2
  | .error (st2, _) => st2

/-- Shared tail of `create_subscription`: `_ensure_provider_customer_id`
followed by the insert of the subscription in `pending_activation` with
`current_period_end = utcnow()` (the uuid-based opaque ids are replaced by
deterministic counter-derived strings). -/
def create_subscription_for (now : Int) (st : AppState) (customer : Customer)
    (plan_id : Nat) : AppState :=
  let customer2 :=
    match customer.provider_customer_id with
    | some _ => customer
    | none => { customer with provider_customer_id := some ("cus_" ++ toString customer.id) }
  let st1 :=
    { st with customers := st.customers.map (fun (c : Customer) => if c.id = customer2.id then customer2 else c) }
  let subscription : Subscription := {
    id := st1.next_subscription_id
    customer_id := customer2.id
    plan_id := plan_id
    status := .pending_activation
    current_period_end := now
    cancel_at_period_end := false
    past_due_since := none
    canceled_at := none
    expired_at := none
    provider_subscription_id := "sub_" ++ toString st1.next_subscription_id
    access_revoked := false
    updated_at := now }
  { st1 with
    subscriptions := st1.subscriptions ++ [subscription]
    next_subscription_id := st1.next_subscription_id + 1 }

/-- Translation of `create_subscription` (services.py, lines 206-238),
including `_get_or_create_customer_by_email`. -/
def create_subscription (now : Int) (st : AppState) (input : SubscriptionCreateIn) :
    Except String AppState :=
  match input.customer_id, input.customer_email with
  | none, none => .error "customer_id or customer_email is required"
  | some cid, _ =>
    (match st.customers.find? (fun c => decide (c.id = cid)) with
     | none => .error "Customer not found"
     | some customer => .ok (create_subscription_for now st customer input.plan_id))
  | none, some email =>
    (match st.customers.find? (fun c => decide (c.email = email)) with
     | some customer => .ok (create_subscription_for now st customer input.plan_id)
     | none =>
       let customer : Customer := {
         id := st.next_customer_id
         provider_customer_id := none
         email := email }
       let st1 := { st with
         customers := st.customers ++ [customer]
         next_customer_id := st.next_customer_id + 1 }
       .ok (create_subscription_for now st1 customer input.plan_id))

/-- Translation of `set_subscription_cancel_at_period_end` (services.py,
lines 503-516); a missing subscription raises NotFoundError without
committing anything. -/
def set_cancel_at_period_end (now : Int) (st : AppState) (sub_id : Nat) (flag : Bool) :
    AppState :=
  match st.subscriptions.find? (fun s => decide (s.id = sub_id)) with
  | none => st
  | some s => update_subscription st { s with cancel_at_period_end := flag, updated_at := now }

/-- Per-row effect of the grace sweep: a past_due subscription whose
`past_due_since` is at or before the grace limit is canceled with
`access_revoked = true`; rows with no `past_due_since` are skipped. -/
def grace_update (now grace_limit : Int) (s : Subscription) : Subscription :=
  if s.status = .past_due then
    match s.past_due_since with
    | none => s
    | some since =>
      if grace_limit < since then s
      else { s with
        status := .canceled
        canceled_at := some now
        access_revoked := true
        updated_at := now }
  else s

/-- Translation of `enforce_grace_period` (services.py, lines 446-471),
with `grace_limit = now - 1 day`. -/
def enforce_grace_period (now : Int) (st : AppState) : AppState :=
  { st with subscriptions := st.subscriptions.map (grace_update now (now - 86400)) }

/-- Per-row effect of the expiry sweep: an active subscription past its
period end is canceled (if `cancel_at_period_end`) or expired. -/
def expire_update (now : Int) (s : Subscription) : Subscription :=
  if s.status = .active ∧ s.current_period_end ≤ now then
    if s.cancel_at_period_end then
      { s with
        status := .canceled
        canceled_at := some now
        access_revoked := true
        updated_at := now }
    else
      { s with
        status := .expired
        expired_at := some now
        updated_at := now }
  else s

/-- Translation of `expire_subscriptions` (services.py, lines 474-500). -/
def expire_subscriptions (now : Int) (st : AppState) : AppState :=
  { st with subscriptions := st.subscriptions.map (expire_update now) }

/-- Retry-candidate filter of `retry_failed_webhooks` (services.py, lines
386-395): failed, not flagged for attention, and retry due. -/
def retry_candidate (now : Int) (e : WebhookEvent) : Bool :=
  decide (e.processing_status = .failed) && !e.needs_attention &&
    (match e.next_retry_at with
     | none => true
     | some t => decide (t ≤ now))

/-- Candidate selection of the retry sweep: the filtered rows in ascending
insertion order, up to `limit`. -/
def find_retry_candidates (now : Int) (st : AppState) (limit : Nat) : List WebhookEvent :=
  (st.events.filter (retry_candidate now)).take limit

/-- Per-event body of the retry sweep loop (services.py, lines 399-414). -/
def retry_one (now : Int) (st : AppState) (e : WebhookEvent) : AppState :=
  match dispatch_event now st e with
  | .ok (st2, ev2) => store_event (bump_outcome st2 ev2) (retry_cleared_event ev2)
  | .error (st2, err) => store_event (bump_failed st2) (mark_failed now e err.message)

/-- Translation of `retry_failed_webhooks` (services.py, lines 384-420):
select the candidates once, then dispatch each in order; the final commit
covers the whole batch. -/
def retry_failed_webhooks (now : Int) (st : AppState) (limit : Nat) : AppState :=
  (find_retry_candidates now st limit).foldl (retry_one now) st

/-- Translation of `get_webhook_event` with `provider=None` (services.py,
lines 372-381): all rows with the given event id. -/
def get_webhook_event_rows (st : AppState) (event_id : String) : List WebhookEvent :=
  st.events.filter (fun e => decide (e.event_id = event_id))

/-- Translation of `reprocess_webhook_event` (services.py, lines 423-439):
re-dispatch the stored event regardless of its `processing_status`; a
dispatch failure is marked on the event but not re-raised.  A missing or
ambiguous event id raises before any mutation, leaving the state
unchanged. -/
def reprocess_webhook_event (now : Int) (st : AppState) (event_id : String) : AppState :=
  match get_webhook_event_rows st event_id with
  | [e] =>
    (match dispatch_event now st e with
     | .ok (st2, ev2) => store_event (bump_outcome st2 ev2) (retry_cleared_event ev2)
     | .error (st2, err) => store_event (bump_failed st2) (mark_failed now e err.message))
  | _ => st

/-- The operations that can mutate the store, each tagged with the wall
clock of its invocation. -/
inductive Op
  | webhook (now : Int) (provider : String) (webhook : WebhookEventIn)
      (verified : VerifiedWebhookData)
  | createSub (now : Int) (input : SubscriptionCreateIn)
  | cancelAtPeriodEnd (now : Int) (sub_id : Nat) (flag : Bool)
  | graceSweep (now : Int)
  | expireSweep (now : Int)
  | retrySweep (now : Int) (limit : Nat)
  | reprocess (now : Int) (event_id : String)
deriving DecidableEq, Repr

/-- Committed state after one operation. -/
def apply_op (op : Op) (st : AppState) : AppState :=
  match op with
  | .webhook now p w v => process_webhook_commit now st p w v
  | .createSub now input =>
    (match create_subscription now st input with
     | .ok st2 => st2
     | .error _ => st)
  | .cancelAtPeriodEnd now sub_id flag => set_cancel_at_period_end now st sub_id flag
  | .graceSweep now => enforce_grace_period now st
  | .expireSweep now => expire_subscriptions now st
  | .retrySweep now limit => retry_failed_webhooks now st limit
  | .reprocess now event_id => reprocess_webhook_event now st event_id

/-- Committed state after a sequence of operations. -/
def apply_ops (ops : List Op) (st : AppState) : AppState :=
  ops.foldl (fun s op => apply_op op s) st

/-- Parsed JSON value, as produced by `json.loads` (api.py).  Numbers are
modelled as integers; no claim depends on the numeric contents. -/
inductive Json
  | null
  | bool (b : Bool)
  | num (n : Int)
  | str (s : String)
  | arr (items : List Json)
  | obj (fields : List (String × Json))

/-- Python `str()` applied to a JSON-parsed value, as in the
`{str(k): str(v) for k, v in loaded.items()}` comprehension of
`_load_webhook_secrets` (api.py, line 63).  The renderings of containers
approximate `repr`; the claims depend only on the result being a plain
string. -/
def py_str : Json → String
  | .null => "None"
  | .bool true => "True"
  | .bool false => "False"
  | .num n => toString n
  | .str s => s
  | .arr _ => "[...]"
  | .obj _ => "\x7b...\x7d"

/-- Translation of `_load_webhook_secrets` (api.py, lines 53-66) for an
environment value that parses as JSON: a non-object raises RuntimeError,
and an object is coerced key- and value-wise with `str`, so every value of
the loaded mapping is a plain string. -/
def load_webhook_secrets (j : Json) : Except String (List (String × String)) :=
  match j with
  | .obj fields => .ok (fields.map (fun kv => (kv.1, py_str kv.2)))
  | _ => .error "WEBHOOK_SECRETS_JSON must be a JSON object"

/-- A per-provider entry of the `WEBHOOK_SECRETS` mapping as consumed by
`_get_secret_candidates` (api.py): a literal string (simple mode), a
structured rotation entry (the `isinstance` filtering of its members is
reflected in the field types), or any other value (which yields no
candidates). -/
inductive SecretCfg
  | simple (s : String)
  | rotation (keys : List (String × String)) (current : Option String) (previous : List String)
  | other
deriving DecidableEq, Repr

/-- Order-preserving deduplication, as in the `seen`/`deduped` loop of
`_get_secret_candidates` (api.py, lines 92-99): the first occurrence
wins. -/
def dedupe_keep_first (l : List String) : List String :=
  l.foldl (fun acc s => if s ∈ acc then acc else acc ++ [s]) []

/-- Translation of `_get_secret_candidates` (api.py, lines 69-99): resolve
the provider entry, return the singleton for simple mode, or assemble
key-id override, current and previous secrets for rotation mode and
deduplicate preserving order.  Python truthiness of `key_id` makes an
empty key id behave like an absent one. -/
def get_secret_candidates (secrets : List (String × SecretCfg)) (provider : String)
    (key_id : Option String) : List String :=
  match secrets.find? (fun kv => decide (kv.1 = provider)) with
  | none => []
  | some kv =>
    match kv.2 with
    | .simple s => [s]
    | .other => []
    | .rotation keys current previous =>
      let fromKey : List String :=
        match key_id with
        | none => []
        | some kid =>
          if kid = "" then []
          else
            match keys.find? (fun e => decide (e.1 = kid)) with
            | some e => [e.2]
            | none => []
      let fromCurrent : List String :=
        match current with
        | some s => [s]
        | none => []
      dedupe_keep_first (fromKey ++ fromCurrent ++ previous)

/-- Lift an environment-loaded registry (whose values are all plain
strings) to the shape consumed by `_get_secret_candidates`: every provider
is in simple mode. -/
def env_registry (reg : List (String × String)) : List (String × SecretCfg) :=
  reg.map (fun kv => (kv.1, SecretCfg.simple kv.2))

/-! Concrete fixture data used by the counterexample and witness
theorems. -/

/-- All-zero metric counters. -/
def metrics0 : Metrics := ⟨0, 0, 0, 0⟩

/-- A customer already linked to the provider. -/
def fix_customer : Customer := ⟨1, some "cus_1", "a@b.c"⟩

/-- An active subscription of `fix_customer` with period end 1000. -/
def fix_active_sub : Subscription :=
  ⟨1, 1, 1, .active, 1000, false, none, none, none, "sub_1", false, 0⟩

/-- Store holding `fix_customer` and `fix_active_sub` and nothing else. -/
def fix_active_state : AppState :=
  ⟨[fix_customer], [fix_active_sub], [], [], metrics0, 2, 2, 1⟩

/-- A payload whose period end 900 is strictly earlier than the stored
period end 1000 of `fix_active_sub`: a stale event. -/
def c1_payload : PayloadData :=
  ⟨some "cus_1", some "sub_1", 500, "USD", .num 900, some "pay_1", some "inv_1"⟩

/-- Webhook body fields of the stale delivery. -/
def c1_webhook : WebhookEventIn := ⟨"evt_stale", "payment.succeeded"⟩

/-- Verified wrapper of the stale delivery. -/
def c1_verified : VerifiedWebhookData := ⟨.object c1_payload, "sig1", 50⟩

/-- A past_due subscription whose grace period has long elapsed. -/
def c2_past_due_sub : Subscription :=
  ⟨1, 1, 1, .past_due, 1000, false, some 100, none, none, "sub_1", false, 0⟩

/-- Store holding `fix_customer` and `c2_past_due_sub`. -/
def c2_past_due_state : AppState :=
  ⟨[fix_customer], [c2_past_due_sub], [], [], metrics0, 2, 2, 1⟩

/-- State after the grace sweep cancels the past_due subscription. -/
def c2_canceled_state : AppState := enforce_grace_period 100000 c2_past_due_state

/-- A non-stale `payment.succeeded` payload (period end 2000 is at or after
the stored period end 1000). -/
def c2_payload : PayloadData :=
  ⟨some "cus_1", some "sub_1", 500, "USD", .num 2000, some "pay_1", none⟩

/-- Webhook body fields of the post-cancellation delivery. -/
def c2_webhook : WebhookEventIn := ⟨"evt_c2", "payment.succeeded"⟩

/-- Verified wrapper of the post-cancellation delivery. -/
def c2_verified : VerifiedWebhookData := ⟨.object c2_payload, "sig2", 70⟩

/-- Empty initial store. -/
def empty_state : AppState := ⟨[], [], [], [], metrics0, 1, 1, 1⟩

/-- A resolving, non-stale `payment.succeeded` payload used by the
idempotent-delivery witness. -/
def c8_payload : PayloadData :=
  ⟨some "cus_1", some "sub_1", 500, "USD", .num 2000, some "pay_c8", none⟩

/-- Webhook body fields of the idempotent-delivery witness. -/
def c8_webhook : WebhookEventIn := ⟨"evt_c8", "payment.succeeded"⟩

/-- Verified wrapper of the idempotent-delivery witness, identical on
every delivery. -/
def c8_verified : VerifiedWebhookData := ⟨.object c8_payload, "sig_c8", 77⟩

/-- Payload referring to the customer and subscription that exist only
after the third operation of the `c5` trace. -/
def c5_payload : PayloadData := ⟨some "cus_1", some "sub_1", 0, "USD", .num 100, none, none⟩

/-- Webhook body fields of the repeatedly delivered `c5` event. -/
def c5_webhook : WebhookEventIn := ⟨"evt_1", "payment.succeeded"⟩

/-- Verified wrapper of the `c5` event, identical on every delivery. -/
def c5_verified : VerifiedWebhookData := ⟨.object c5_payload, "s1", 5⟩

/-- Operation trace: the event fails twice (unknown customer), raising
`attempt_count` to 3 and setting `needs_attention`; then the subscription
is created and a third delivery re-dispatches the stored failed event
successfully, which clears `needs_attention` while `attempt_count` stays
at 3. -/
def c5_ops : List Op :=
  [ .webhook 10 "test" c5_webhook c5_verified,
    .webhook 20 "test" c5_webhook c5_verified,
    .createSub 30 ⟨none, some "a@b.c", 1⟩,
    .webhook 40 "test" c5_webhook c5_verified ]

/-- Final state of the `c5` trace. -/
def c5_final : AppState := apply_ops c5_ops empty_state

/-- Amended needs-attention invariant: `needs_attention = true` implies
`attempt_count ≥ 3` for every stored event. -/
def events_attention_inv (st : AppState) : Prop :=
  ∀ e ∈ st.events, e.needs_attention = true → 3 ≤ e.attempt_count

/-- Per-event form of the amended needs-attention invariant. -/
def attention_ok (e : WebhookEvent) : Prop :=
  e.needs_attention = true → 3 ≤ e.attempt_count

/-- Monotone evolution of the subscription table: rows are only appended,
every surviving row keeps its primary key, and no row's
`current_period_end` moves backwards. -/
def subs_mono (l l2 : List Subscription) : Prop :=
  l.length ≤ l2.length ∧
  ∀ i : Nat, ∀ s s2 : Subscription, l[i]? = some s → l2[i]? = some s2 →
    s2.id = s.id ∧ s.current_period_end ≤ s2.current_period_end

/-- Well-formedness of the subscription table: primary keys are distinct
and below the autoincrement cursor. -/
def wf_subs (st : AppState) : Prop :=
  (st.subscriptions.map (fun s => s.id)).Nodup ∧
  ∀ s ∈ st.subscriptions, s.id < st.next_subscription_id

/-- Well-formedness of the event table: primary keys are distinct and
below the autoincrement cursor. -/
def wf_events (st : AppState) : Prop :=
  (st.events.map (fun e => e.id)).Nodup ∧
  ∀ e ∈ st.events, e.id < st.next_event_id

/-- Fields of the store a handler never touches. -/
def frame_eq (st st2 : AppState) : Prop :=
  st2.events = st.events ∧ st2.customers = st.customers ∧ st2.metrics = st.metrics ∧
  st2.next_customer_id = st.next_customer_id ∧
  st2.next_subscription_id = st.next_subscription_id ∧
  st2.next_event_id = st.next_event_id

/-- Subscription-table effect of a successful handler run: assuming
distinct primary keys, the table evolves monotonically and the key list is
unchanged. -/
def subs_frame (st st2 : AppState) : Prop :=
  (st.subscriptions.map (fun s => s.id)).Nodup →
    subs_mono st.subscriptions st2.subscriptions ∧
    st2.subscriptions.map (fun s => s.id) = st.subscriptions.map (fun s => s.id)

/-- Identity fields of an event preserved by a dispatch. -/
def event_ident_eq (ev2 ev : WebhookEvent) : Prop :=
  ev2.id = ev.id ∧ ev2.provider = ev.provider ∧ ev2.event_id = ev.event_id ∧
  ev2.event_type = ev.event_type ∧ ev2.payload_raw = ev.payload_raw ∧
  ev2.signature = ev.signature ∧ ev2.signature_timestamp = ev.signature_timestamp ∧
  ev2.attempt_count = ev.attempt_count

/-- The committed state carried by either arm of a `process_webhook` or
`handle_existing_event` outcome. -/
def outcome_state : Except (AppState × ProcessError) (AppState × WebhookEvent) → AppState
  | .ok (st, _) => st
  | .error (st, _) => st

/-- The state after `n` idempotent replays: only the `webhook_replayed`
counter differs from `st`. -/
def replayed_state (st : AppState) (n : Nat) : AppState :=
  { st with metrics :=
      { st.metrics with webhook_replayed := st.metrics.webhook_replayed + n } }

/-- The event returned by a successful first delivery. -/
def success_event (now : Int) (st : AppState) (provider : String) (w : WebhookEventIn)
    (v : VerifiedWebhookData) : WebhookEvent :=
  first_cleared_event (processed_event now (fresh_event st provider w v))

/-- The committed state of a successful first delivery of a resolving,
non-stale `payment.succeeded` event (spelled out along the success path of
`process_webhook`). -/
def success_commit (now : Int) (st : AppState) (provider : String) (w : WebhookEventIn)
    (v : VerifiedWebhookData) (pd : PayloadData) (cust : Customer) (sub : Subscription) :
    AppState :=
  store_event
    (bump_outcome
      (add_payment
        (update_subscription (insert_event st (fresh_event st provider w v))
          (advance_subscription now (parse_period_end now pd.current_period_end) sub))
        (handler_payment now .approved cust sub (fresh_event st provider w v) pd))
      (processed_event now (fresh_event st provider w v)))
    (first_cleared_event (processed_event now (fresh_event st provider w v)))

end EventLedger

namespace EventLedger

/-! Theorems. -/

/-! Projection lemmas for the elementary store updates. -/

@[simp]
theorem store_event_subscriptions (st : AppState) (e : WebhookEvent) :
    (store_event st e).subscriptions = st.subscriptions := rfl

@[simp]
theorem store_event_customers (st : AppState) (e : WebhookEvent) :
    (store_event st e).customers = st.customers := rfl

@[simp]
theorem store_event_payments (st : AppState) (e : WebhookEvent) :
    (store_event st e).payments = st.payments := rfl

@[simp]
theorem store_event_events (st : AppState) (e : WebhookEvent) :
    (store_event st e).events = st.events.map (fun t => if t.id = e.id then e else t) := rfl

@[simp]
theorem store_event_next_subscription_id (st : AppState) (e : WebhookEvent) :
    (store_event st e).next_subscription_id = st.next_subscription_id := rfl

@[simp]
theorem store_event_next_event_id (st : AppState) (e : WebhookEvent) :
    (store_event st e).next_event_id = st.next_event_id := rfl

@[simp]
theorem bump_failed_fields (st : AppState) :
    (bump_failed st).subscriptions = st.subscriptions ∧
    (bump_failed st).customers = st.customers ∧
    (bump_failed st).payments = st.payments ∧
    (bump_failed st).events = st.events ∧
    (bump_failed st).next_subscription_id = st.next_subscription_id ∧
    (bump_failed st).next_event_id = st.next_event_id :=
  ⟨rfl, rfl, rfl, rfl, rfl, rfl⟩

@[simp]
theorem bump_replayed_fields (st : AppState) :
    (bump_replayed st).subscriptions = st.subscriptions ∧
    (bump_replayed st).customers = st.customers ∧
    (bump_replayed st).payments = st.payments ∧
    (bump_replayed st).events = st.events ∧
    (bump_replayed st).next_subscription_id = st.next_subscription_id ∧
    (bump_replayed st).next_event_id = st.next_event_id :=
  ⟨rfl, rfl, rfl, rfl, rfl, rfl⟩

@[simp]
theorem bump_outcome_subscriptions (st : AppState) (ev : WebhookEvent) :
    (bump_outcome st ev).subscriptions = st.subscriptions := by
  unfold bump_outcome; split <;> rfl

@[simp]
theorem bump_outcome_customers (st : AppState) (ev : WebhookEvent) :
    (bump_outcome st ev).customers = st.customers := by
  unfold bump_outcome; split <;> rfl

@[simp]
theorem bump_outcome_payments (st : AppState) (ev : WebhookEvent) :
    (bump_outcome st ev).payments = st.payments := by
  unfold bump_outcome; split <;> rfl

@[simp]
theorem bump_outcome_events (st : AppState) (ev : WebhookEvent) :
    (bump_outcome st ev).events = st.events := by
  unfold bump_outcome; split <;> rfl

@[simp]
theorem bump_outcome_next_subscription_id (st : AppState) (ev : WebhookEvent) :
    (bump_outcome st ev).next_subscription_id = st.next_subscription_id := by
  unfold bump_outcome; split <;> rfl

@[simp]
theorem bump_outcome_next_event_id (st : AppState) (ev : WebhookEvent) :
    (bump_outcome st ev).next_event_id = st.next_event_id := by
  unfold bump_outcome; split <;> rfl

@[simp]
theorem insert_event_fields (st : AppState) (ev : WebhookEvent) :
    (insert_event st ev).subscriptions = st.subscriptions ∧
    (insert_event st ev).customers = st.customers ∧
    (insert_event st ev).payments = st.payments ∧
    (insert_event st ev).metrics = st.metrics ∧
    (insert_event st ev).events = st.events ++ [ev] ∧
    (insert_event st ev).next_subscription_id = st.next_subscription_id :=
  ⟨rfl, rfl, rfl, rfl, rfl, rfl⟩

@[simp]
theorem add_payment_fields (st : AppState) (p : Payment) :
    (add_payment st p).subscriptions = st.subscriptions ∧
    (add_payment st p).customers = st.customers ∧
    (add_payment st p).events = st.events ∧
    (add_payment st p).metrics = st.metrics ∧
    (add_payment st p).payments = st.payments ++ [p] ∧
    (add_payment st p).next_subscription_id = st.next_subscription_id ∧
    (add_payment st p).next_event_id = st.next_event_id :=
  ⟨rfl, rfl, rfl, rfl, rfl, rfl, rfl⟩

@[simp]
theorem update_subscription_fields (st : AppState) (s : Subscription) :
    (update_subscription st s).customers = st.customers ∧
    (update_subscription st s).payments = st.payments ∧
    (update_subscription st s).events = st.events ∧
    (update_subscription st s).metrics = st.metrics ∧
    (update_subscription st s).next_subscription_id = st.next_subscription_id ∧
    (update_subscription st s).next_event_id = st.next_event_id :=
  ⟨rfl, rfl, rfl, rfl, rfl, rfl⟩

/-! Basic properties of `subs_mono`. -/

theorem subs_mono_refl (l : List Subscription) : subs_mono l l := by
  refine ⟨le_refl _, fun i s s2 h1 h2 => ?_⟩
  rw [h1] at h2
  cases h2
  exact ⟨rfl, le_refl _⟩

theorem subs_mono_trans {l1 l2 l3 : List Subscription}
    (h : subs_mono l1 l2) (h2 : subs_mono l2 l3) : subs_mono l1 l3 := by
  refine ⟨le_trans h.1 h2.1, fun i s s3 hs hs3 => ?_⟩
  have hi : i < l1.length := by
    rcases List.getElem?_eq_some.1 hs with ⟨hlt, _⟩
    exact hlt
  have hi2 : i < l2.length := lt_of_lt_of_le hi h.1
  have hmid : l2[i]? = some l2[i] := List.getElem?_eq_getElem hi2
  have p1 := h.2 i s l2[i] hs hmid
  have p2 := h2.2 i l2[i] s3 hmid hs3
  exact ⟨p2.1.trans p1.1, p1.2.trans p2.2⟩

theorem subs_mono_append (l tail : List Subscription) : subs_mono l (l ++ tail) := by
  refine ⟨by simp, fun i s s2 h1 h2 => ?_⟩
  have hi : i < l.length := by
    rcases List.getElem?_eq_some.1 h1 with ⟨hlt, _⟩
    exact hlt
  rw [List.getElem?_append_left hi, h1] at h2
  cases h2
  exact ⟨rfl, le_refl _⟩

/-- Pointwise map that keeps primary keys and never lowers the period end
evolves the table monotonically and keeps the key list. -/
theorem map_pointwise_mono (l : List Subscription) (g : Subscription → Subscription)
    (hid : ∀ t, (g t).id = t.id)
    (hcpe : ∀ t ∈ l, t.current_period_end ≤ (g t).current_period_end) :
    subs_mono l (l.map g) ∧
    (l.map g).map (fun s => s.id) = l.map (fun s => s.id) := by
  constructor
  · refine ⟨by simp, fun i s s2 h1 h2 => ?_⟩
    rw [List.getElem?_map, h1] at h2
    cases h2
    exact ⟨hid s, hcpe s (List.getElem?_mem h1)⟩
  · rw [List.map_map]
    exact List.map_congr_left (fun t _ => hid t)

/-- Replacing the rows keyed like `s2` by `s2`, when `s2` descends from a
member `sub` without lowering the period end and keys are distinct, evolves
the table monotonically and keeps the key list. -/
theorem map_update_mono (l : List Subscription) (sub s2 : Subscription)
    (hmem : sub ∈ l) (hid : s2.id = sub.id)
    (hcpe : sub.current_period_end ≤ s2.current_period_end)
    (hnd : (l.map (fun s => s.id)).Nodup) :
    subs_mono l (l.map (fun t => if t.id = s2.id then s2 else t)) ∧
    (l.map (fun t => if t.id = s2.id then s2 else t)).map (fun s => s.id) =
      l.map (fun s => s.id) := by
  apply map_pointwise_mono
  · intro t
    by_cases h : t.id = s2.id
    · simp [h]
    · simp [h]
  · intro t ht
    by_cases h : t.id = s2.id
    · have heq : t = sub := by
        apply List.inj_on_of_nodup_map hnd ht hmem
        rw [h, hid]
      rw [if_pos h, heq]
      exact hcpe
    · simp [h]

/-! Structural lemmas about the handlers and the dispatcher. -/

/-- Period end of the advanced subscription. -/
theorem advance_subscription_cpe (now period_end : Int) (s : Subscription) :
    (advance_subscription now period_end s).current_period_end = period_end := rfl

/-- A dunning update never moves the period end. -/
theorem dunning_subscription_cpe (now : Int) (s : Subscription) :
    (dunning_subscription now s).current_period_end = s.current_period_end := by
  unfold dunning_subscription; split <;> rfl

/-- A successful `payment.succeeded` handler run only appends payments,
evolves subscriptions monotonically and returns the event unchanged or
stale-marked. -/
theorem handle_payment_succeeded_ok (now : Int) (st : AppState) (ev : WebhookEvent)
    (pd : PayloadData) (st2 : AppState) (ev2 : WebhookEvent)
    (h : handle_payment_succeeded now st ev pd = .ok (st2, ev2)) :
    frame_eq st st2 ∧ subs_frame st st2 ∧
    (∃ tail, st2.payments = st.payments ++ tail) ∧
    (ev2 = ev ∨ ev2 = stale_ignored_event now ev) := by
  unfold handle_payment_succeeded at h
  split at h
  · simp at h
  · simp at h
  · rename_i pcid psid
    split at h
    · simp at h
    · rename_i customer hcust
      split at h
      · simp at h
      · rename_i subscription hsub
        split at h
        · simp at h
        · split at h
          · simp only [Except.ok.injEq, Prod.mk.injEq] at h
            obtain ⟨h1, h2⟩ := h
            subst h1
            exact ⟨⟨rfl, rfl, rfl, rfl, rfl, rfl⟩,
              fun _ => ⟨subs_mono_refl _, rfl⟩,
              ⟨[], by simp⟩, Or.inr h2.symm⟩
          · rename_i hguard
            simp only [Except.ok.injEq, Prod.mk.injEq] at h
            obtain ⟨h1, h2⟩ := h
            subst h1
            refine ⟨⟨by simp, by simp, by simp, rfl, by simp, by simp⟩, ?_,
              ⟨[handler_payment now .approved customer subscription ev pd],
                by simp [add_payment, update_subscription]⟩,
              Or.inl h2.symm⟩
            intro hnd
            have hmem := List.mem_of_find?_eq_some hsub
            have hup := map_update_mono st.subscriptions subscription
              (advance_subscription now (parse_period_end now pd.current_period_end) subscription)
              hmem rfl (not_lt.1 hguard) hnd
            simpa [add_payment, update_subscription] using hup

/-- A successful `invoice.payment_failed` handler run only appends
payments, evolves subscriptions monotonically (the period end is
untouched) and returns the event unchanged or stale-marked. -/
theorem handle_invoice_payment_failed_ok (now : Int) (st : AppState) (ev : WebhookEvent)
    (pd : PayloadData) (st2 : AppState) (ev2 : WebhookEvent)
    (h : handle_invoice_payment_failed now st ev pd = .ok (st2, ev2)) :
    frame_eq st st2 ∧ subs_frame st st2 ∧
    (∃ tail, st2.payments = st.payments ++ tail) ∧
    (ev2 = ev ∨ ev2 = stale_ignored_event now ev) := by
  unfold handle_invoice_payment_failed at h
  split at h
  · simp at h
  · simp at h
  · rename_i pcid psid
    split at h
    · simp at h
    · rename_i customer hcust
      split at h
      · simp at h
      · rename_i subscription hsub
        split at h
        · simp at h
        · split at h
          · simp only [Except.ok.injEq, Prod.mk.injEq] at h
            obtain ⟨h1, h2⟩ := h
            subst h1
            exact ⟨⟨rfl, rfl, rfl, rfl, rfl, rfl⟩,
              fun _ => ⟨subs_mono_refl _, rfl⟩,
              ⟨[], by simp⟩, Or.inr h2.symm⟩
          · simp only [Except.ok.injEq, Prod.mk.injEq] at h
            obtain ⟨h1, h2⟩ := h
            subst h1
            refine ⟨⟨by simp, by simp, by simp, rfl, by simp, by simp⟩, ?_,
              ⟨[handler_payment now .refused customer subscription ev pd],
                by simp [add_payment, update_subscription]⟩,
              Or.inl h2.symm⟩
            intro hnd
            have hmem := List.mem_of_find?_eq_some hsub
            have hup := map_update_mono st.subscriptions subscription
              (dunning_subscription now subscription) hmem
              (by unfold dunning_subscription; split <;> rfl)
              (le_of_eq (dunning_subscription_cpe now subscription).symm) hnd
            simpa [add_payment, update_subscription] using hup

/-- A handler raise of `payment.succeeded` happens before any session
mutation: the carried state is the input state. -/
theorem handle_payment_succeeded_error (now : Int) (st : AppState) (ev : WebhookEvent)
    (pd : PayloadData) (st2 : AppState) (err : DispatchError)
    (h : handle_payment_succeeded now st ev pd = .error (st2, err)) : st2 = st := by
  unfold handle_payment_succeeded at h
  split at h
  · simp only [Except.error.injEq, Prod.mk.injEq] at h; exact h.1.symm
  · simp only [Except.error.injEq, Prod.mk.injEq] at h; exact h.1.symm
  · split at h
    · simp only [Except.error.injEq, Prod.mk.injEq] at h; exact h.1.symm
    · split at h
      · simp only [Except.error.injEq, Prod.mk.injEq] at h; exact h.1.symm
      · split at h
        · simp only [Except.error.injEq, Prod.mk.injEq] at h; exact h.1.symm
        · split at h
          · simp at h
          · simp at h

/-- A handler raise of `invoice.payment_failed` happens before any session
mutation: the carried state is the input state. -/
theorem handle_invoice_payment_failed_error (now : Int) (st : AppState) (ev : WebhookEvent)
    (pd : PayloadData) (st2 : AppState) (err : DispatchError)
    (h : handle_invoice_payment_failed now st ev pd = .error (st2, err)) : st2 = st := by
  unfold handle_invoice_payment_failed at h
  split at h
  · simp only [Except.error.injEq, Prod.mk.injEq] at h; exact h.1.symm
  · simp only [Except.error.injEq, Prod.mk.injEq] at h; exact h.1.symm
  · split at h
    · simp only [Except.error.injEq, Prod.mk.injEq] at h; exact h.1.symm
    · split at h
      · simp only [Except.error.injEq, Prod.mk.injEq] at h; exact h.1.symm
      · split at h
        · simp only [Except.error.injEq, Prod.mk.injEq] at h; exact h.1.symm
        · split at h
          · simp at h
          · simp at h

/-- A successful dispatch only appends payments, evolves subscriptions
monotonically, and changes nothing of the event except its processing
outcome fields. -/
theorem dispatch_event_ok (now : Int) (st : AppState) (ev : WebhookEvent)
    (st2 : AppState) (ev2 : WebhookEvent)
    (h : dispatch_event now st ev = .ok (st2, ev2)) :
    frame_eq st st2 ∧ subs_frame st st2 ∧
    (∃ tail, st2.payments = st.payments ++ tail) ∧
    event_ident_eq ev2 ev ∧
    ev2.needs_attention = ev.needs_attention ∧ ev2.next_retry_at = ev.next_retry_at := by
  unfold dispatch_event at h
  cases hpd : ev.payload_raw with
  | notObject => rw [hpd] at h; dsimp only [] at h; simp at h
  | object pd =>
    rw [hpd] at h
    dsimp only [] at h
    by_cases ht : ev.event_type = "payment.succeeded"
    · rw [if_pos ht] at h
      cases hps : handle_payment_succeeded now st ev pd with
      | error e => rw [hps] at h; dsimp only [] at h; simp at h
      | ok p =>
        obtain ⟨st3, ev3⟩ := p
        rw [hps] at h
        dsimp only [] at h
        simp only [Except.ok.injEq, Prod.mk.injEq] at h
        obtain ⟨h1, h2⟩ := h
        subst h1
        obtain ⟨hf, hs, hp, hev⟩ := handle_payment_succeeded_ok now st ev pd st3 ev3 hps
        refine ⟨hf, hs, hp, ?_⟩
        cases hev with
        | inl he => subst he; rw [← h2]; simp [event_ident_eq, processed_event]
        | inr he =>
          subst he; rw [← h2]; simp [event_ident_eq, processed_event, stale_ignored_event]
    · rw [if_neg ht] at h
      by_cases ht2 : ev.event_type = "invoice.payment_failed"
      · rw [if_pos ht2] at h
        cases hps : handle_invoice_payment_failed now st ev pd with
        | error e => rw [hps] at h; dsimp only [] at h; simp at h
        | ok p =>
          obtain ⟨st3, ev3⟩ := p
          rw [hps] at h
          dsimp only [] at h
          simp only [Except.ok.injEq, Prod.mk.injEq] at h
          obtain ⟨h1, h2⟩ := h
          subst h1
          obtain ⟨hf, hs, hp, hev⟩ := handle_invoice_payment_failed_ok now st ev pd st3 ev3 hps
          refine ⟨hf, hs, hp, ?_⟩
          cases hev with
          | inl he => subst he; rw [← h2]; simp [event_ident_eq, processed_event]
          | inr he =>
            subst he; rw [← h2]
            simp [event_ident_eq, processed_event, stale_ignored_event]
      · rw [if_neg ht2] at h
        simp only [handle_unknown_event, Except.ok.injEq, Prod.mk.injEq] at h
        obtain ⟨h1, h2⟩ := h
        subst h1
        rw [← h2]
        exact ⟨⟨rfl, rfl, rfl, rfl, rfl, rfl⟩, fun _ => ⟨subs_mono_refl _, rfl⟩,
          ⟨[], by simp⟩, by simp [event_ident_eq], rfl, rfl⟩

/-- A dispatch raise happens before any session mutation: the carried
state is the input state. -/
theorem dispatch_event_error (now : Int) (st : AppState) (ev : WebhookEvent)
    (st2 : AppState) (err : DispatchError)
    (h : dispatch_event now st ev = .error (st2, err)) : st2 = st := by
  unfold dispatch_event at h
  cases hpd : ev.payload_raw with
  | notObject =>
    rw [hpd] at h
    dsimp only [] at h
    simp only [Except.error.injEq, Prod.mk.injEq] at h
    exact h.1.symm
  | object pd =>
    rw [hpd] at h
    dsimp only [] at h
    by_cases ht : ev.event_type = "payment.succeeded"
    · rw [if_pos ht] at h
      cases hps : handle_payment_succeeded now st ev pd with
      | error e =>
        obtain ⟨st3, err3⟩ := e
        rw [hps] at h
        dsimp only [] at h
        simp only [Except.error.injEq, Prod.mk.injEq] at h
        obtain ⟨h1, _⟩ := h
        subst h1
        exact handle_payment_succeeded_error now st ev pd st3 err3 hps
      | ok p => obtain ⟨st3, ev3⟩ := p; rw [hps] at h; dsimp only [] at h; simp at h
    · rw [if_neg ht] at h
      by_cases ht2 : ev.event_type = "invoice.payment_failed"
      · rw [if_pos ht2] at h
        cases hps : handle_invoice_payment_failed now st ev pd with
        | error e =>
          obtain ⟨st3, err3⟩ := e
          rw [hps] at h
          dsimp only [] at h
          simp only [Except.error.injEq, Prod.mk.injEq] at h
          obtain ⟨h1, _⟩ := h
          subst h1
          exact handle_invoice_payment_failed_error now st ev pd st3 err3 hps
        | ok p => obtain ⟨st3, ev3⟩ := p; rw [hps] at h; dsimp only [] at h; simp at h
      · rw [if_neg ht2] at h
        simp [handle_unknown_event] at h

/-! Preservation of the amended needs-attention invariant. -/

/-- The failure marking satisfies the amended invariant by construction. -/
theorem mark_failed_attention (now : Int) (ev : WebhookEvent) (msg : String) :
    attention_ok (mark_failed now ev msg) := by
  intro h
  simp only [mark_failed, decide_eq_true_eq] at h
  simpa [mark_failed] using h

/-- An event with `needs_attention = false` satisfies the amended
invariant. -/
theorem attention_ok_of_false {e : WebhookEvent} (h : e.needs_attention = false) :
    attention_ok e := by
  intro hc
  rw [h] at hc
  cases hc

/-- Transport of the invariant along an equality of event tables. -/
theorem events_attention_of_eq {st st2 : AppState} (h : st2.events = st.events)
    (hst : events_attention_inv st) : events_attention_inv st2 := by
  intro e he
  exact hst e (h ▸ he)

/-- Storing an invariant-satisfying event preserves the invariant. -/
theorem store_event_attention (st : AppState) (e : WebhookEvent)
    (hst : events_attention_inv st) (he : attention_ok e) :
    events_attention_inv (store_event st e) := by
  intro f hf
  simp only [store_event_events] at hf
  obtain ⟨t, ht, rfl⟩ := List.mem_map.1 hf
  by_cases hid : t.id = e.id
  · rw [if_pos hid]
    exact he
  · rw [if_neg hid]
    exact hst t ht

/-- Inserting an invariant-satisfying event preserves the invariant. -/
theorem insert_event_attention (st : AppState) (ev : WebhookEvent)
    (hst : events_attention_inv st) (he : attention_ok ev) :
    events_attention_inv (insert_event st ev) := by
  intro f hf
  have : f ∈ st.events ++ [ev] := hf
  rcases List.mem_append.1 this with hmem | hmem
  · exact hst f hmem
  · rw [List.mem_singleton.1 hmem]
    exact he

/-- The existing-event path preserves the amended invariant. -/
theorem handle_existing_event_attention (now : Int) (st : AppState) (ev : WebhookEvent)
    (v : VerifiedWebhookData) (hst : events_attention_inv st) :
    events_attention_inv (outcome_state (handle_existing_event now st ev v)) := by
  unfold handle_existing_event
  by_cases h1 : v.timestamp ≠ ev.signature_timestamp
  · rw [if_pos h1]
    exact store_event_attention _ _ (events_attention_of_eq rfl hst) (mark_failed_attention _ _ _)
  · rw [if_neg h1]
    by_cases h2 : v.signature ≠ ev.signature
    · rw [if_pos h2]
      exact store_event_attention _ _ (events_attention_of_eq rfl hst) (mark_failed_attention _ _ _)
    · rw [if_neg h2]
      by_cases h3 : ev.processing_status = .processed ∨ ev.processing_status = .ignored
      · rw [if_pos h3]
        exact events_attention_of_eq rfl hst
      · rw [if_neg h3]
        by_cases h4 : ev.processing_status = .failed
        · rw [if_pos h4]
          cases hd : dispatch_event now st ev with
          | ok p =>
            obtain ⟨st2, ev2⟩ := p
            dsimp only []
            have hfr := (dispatch_event_ok now st ev st2 ev2 hd).1.1
            exact store_event_attention _ _ (events_attention_of_eq hfr hst)
              (attention_ok_of_false rfl)
          | error e =>
            obtain ⟨st2, err⟩ := e
            dsimp only []
            have hfr := dispatch_event_error now st ev st2 err hd
            subst hfr
            exact store_event_attention _ _ (events_attention_of_eq rfl hst)
              (mark_failed_attention _ _ _)
        · rw [if_neg h4]
          exact hst

/-- The whole webhook-processing path preserves the amended invariant. -/
theorem process_webhook_attention (now : Int) (st : AppState) (provider : String)
    (w : WebhookEventIn) (v : VerifiedWebhookData) (hst : events_attention_inv st) :
    events_attention_inv (outcome_state (process_webhook now st provider w v)) := by
  unfold process_webhook
  cases hex : find_existing_event st provider w.event_id with
  | some existing =>
    dsimp only []
    exact handle_existing_event_attention now st existing v hst
  | none =>
    dsimp only []
    have hins : events_attention_inv (insert_event st (fresh_event st provider w v)) :=
      insert_event_attention st _ hst (attention_ok_of_false rfl)
    cases hd : dispatch_event now (insert_event st (fresh_event st provider w v))
        (fresh_event st provider w v) with
    | ok p =>
      obtain ⟨st2, ev2⟩ := p
      dsimp only []
      have hfr := (dispatch_event_ok now _ _ st2 ev2 hd).1.1
      have : events_attention_inv (bump_outcome st2 ev2) :=
        events_attention_of_eq (by simpa using hfr) hins
      exact store_event_attention _ _ this (attention_ok_of_false rfl)
    | error e =>
      obtain ⟨st2, err⟩ := e
      dsimp only []
      have hfr := dispatch_event_error now _ _ st2 err hd
      subst hfr
      exact store_event_attention _ _ (events_attention_of_eq rfl hins)
        (mark_failed_attention _ _ _)

/-- The committed state of `process_webhook` is the outcome state. -/
theorem process_webhook_commit_eq (now : Int) (st : AppState) (provider : String)
    (w : WebhookEventIn) (v : VerifiedWebhookData) :
    process_webhook_commit now st provider w v =
      outcome_state (process_webhook now st provider w v) := by
  unfold process_webhook_commit outcome_state
  cases process_webhook now st provider w v with
  | ok p => obtain ⟨a, b⟩ := p; rfl
  | error e => obtain ⟨a, b⟩ := e; rfl

/-- One retry-sweep step preserves the amended invariant. -/
theorem retry_one_attention (now : Int) (st : AppState) (e : WebhookEvent)
    (hst : events_attention_inv st) : events_attention_inv (retry_one now st e) := by
  unfold retry_one
  cases hd : dispatch_event now st e with
  | ok p =>
    obtain ⟨st2, ev2⟩ := p
    dsimp only []
    have hfr := (dispatch_event_ok now st e st2 ev2 hd).1.1
    exact store_event_attention _ _ (events_attention_of_eq (by simpa using hfr) hst)
      (attention_ok_of_false rfl)
  | error err =>
    obtain ⟨st2, msg⟩ := err
    dsimp only []
    have hfr := dispatch_event_error now st e st2 msg hd
    subst hfr
    exact store_event_attention _ _ (events_attention_of_eq rfl hst)
      (mark_failed_attention _ _ _)

/-- Folding the retry-sweep step over any worklist preserves the amended
invariant. -/
theorem foldl_retry_attention (now : Int) (l : List WebhookEvent) (st : AppState)
    (hst : events_attention_inv st) :
    events_attention_inv (l.foldl (retry_one now) st) := by
  induction l generalizing st with
  | nil => exact hst
  | cons e tail ih => exact ih (retry_one now st e) (retry_one_attention now st e hst)

/-- The admin reprocess path preserves the amended invariant. -/
theorem reprocess_attention (now : Int) (st : AppState) (event_id : String)
    (hst : events_attention_inv st) :
    events_attention_inv (reprocess_webhook_event now st event_id) := by
  unfold reprocess_webhook_event
  rcases get_webhook_event_rows st event_id with _ | ⟨e, _ | ⟨f, rest⟩⟩
  · exact hst
  · exact retry_one_attention now st e hst
  · exact hst

/-- Creation and subscription-level operations leave the event table
untouched. -/
theorem create_subscription_ok_shape (now : Int) (st : AppState)
    (input : SubscriptionCreateIn) (st2 : AppState)
    (h : create_subscription now st input = .ok st2) :
    st2.events = st.events ∧ st2.metrics = st.metrics ∧
    st2.payments = st.payments ∧ st2.next_event_id = st.next_event_id ∧
    ∃ s : Subscription, st2.subscriptions = st.subscriptions ++ [s] ∧
      s.id = st.next_subscription_id ∧
      st2.next_subscription_id = st.next_subscription_id + 1 := by
  unfold create_subscription at h
  split at h
  · simp at h
  · split at h
    · simp at h
    · rename_i customer hcust
      simp only [Except.ok.injEq] at h
      rw [← h]
      refine ⟨rfl, rfl, rfl, rfl, ?_⟩
      exact ⟨_, rfl, rfl, rfl⟩
  · split at h
    · rename_i customer hcust
      simp only [Except.ok.injEq] at h
      rw [← h]
      exact ⟨rfl, rfl, rfl, rfl, _, rfl, rfl, rfl⟩
    · simp only [Except.ok.injEq] at h
      rw [← h]
      exact ⟨rfl, rfl, rfl, rfl, _, rfl, rfl, rfl⟩

/-! Subscription monotonicity and well-formedness per operation. -/

/-- Transport of subscription well-formedness along a key-list equality. -/
theorem wf_of_ids_eq {st st2 : AppState}
    (hids : st2.subscriptions.map (fun s => s.id) = st.subscriptions.map (fun s => s.id))
    (hnext : st2.next_subscription_id = st.next_subscription_id)
    (hw : wf_subs st) : wf_subs st2 := by
  constructor
  · rw [hids]
    exact hw.1
  · intro s hs
    have hmm : s.id ∈ st2.subscriptions.map (fun s => s.id) := List.mem_map_of_mem _ hs
    rw [hids] at hmm
    obtain ⟨t, ht, hts⟩ := List.mem_map.1 hmm
    rw [hnext, ← hts]
    exact hw.2 t ht

/-- Transport of well-formedness along equalities of the two relevant
fields. -/
theorem wf_of_subs_eq {st st2 : AppState}
    (hsubs : st2.subscriptions = st.subscriptions)
    (hnext : st2.next_subscription_id = st.next_subscription_id)
    (hw : wf_subs st) : wf_subs st2 :=
  wf_of_ids_eq (by rw [hsubs]) hnext hw

/-- Monotone step extracted from the handler frame. -/
theorem subs_step_of_frame {st st2 : AppState} (hf : frame_eq st st2)
    (hs : subs_frame st st2) (hw : wf_subs st) :
    subs_mono st.subscriptions st2.subscriptions ∧ wf_subs st2 := by
  obtain ⟨hm, hids⟩ := hs hw.1
  exact ⟨hm, wf_of_ids_eq hids hf.2.2.2.2.1 hw⟩

/-- The grace sweep keeps primary keys. -/
theorem grace_update_id (now grace_limit : Int) (s : Subscription) :
    (grace_update now grace_limit s).id = s.id := by
  unfold grace_update
  split
  · split
    · rfl
    · split
      · rfl
      · rfl
  · rfl

/-- The grace sweep never touches the period end. -/
theorem grace_update_cpe (now grace_limit : Int) (s : Subscription) :
    (grace_update now grace_limit s).current_period_end = s.current_period_end := by
  unfold grace_update
  split
  · split
    · rfl
    · split
      · rfl
      · rfl
  · rfl

/-- The expiry sweep keeps primary keys. -/
theorem expire_update_id (now : Int) (s : Subscription) :
    (expire_update now s).id = s.id := by
  unfold expire_update
  split
  · split
    · rfl
    · rfl
  · rfl

/-- The expiry sweep never touches the period end. -/
theorem expire_update_cpe (now : Int) (s : Subscription) :
    (expire_update now s).current_period_end = s.current_period_end := by
  unfold expire_update
  split
  · split
    · rfl
    · rfl
  · rfl

/-- A successful dispatch is a monotone, well-formedness-preserving step
on the subscription table. -/
theorem dispatch_subs_step (now : Int) (st : AppState) (ev : WebhookEvent)
    (st2 : AppState) (ev2 : WebhookEvent)
    (h : dispatch_event now st ev = .ok (st2, ev2)) (hw : wf_subs st) :
    subs_mono st.subscriptions st2.subscriptions ∧ wf_subs st2 := by
  obtain ⟨hf, hs, _, _⟩ := dispatch_event_ok now st ev st2 ev2 h
  exact subs_step_of_frame hf hs hw

/-- The existing-event path is a monotone, well-formedness-preserving
step. -/
theorem handle_existing_event_subs (now : Int) (st : AppState) (ev : WebhookEvent)
    (v : VerifiedWebhookData) (hw : wf_subs st) :
    subs_mono st.subscriptions (outcome_state (handle_existing_event now st ev v)).subscriptions ∧
    wf_subs (outcome_state (handle_existing_event now st ev v)) := by
  unfold handle_existing_event
  by_cases h1 : v.timestamp ≠ ev.signature_timestamp
  · rw [if_pos h1]
    exact ⟨subs_mono_refl _, wf_of_subs_eq rfl rfl hw⟩
  · rw [if_neg h1]
    by_cases h2 : v.signature ≠ ev.signature
    · rw [if_pos h2]
      exact ⟨subs_mono_refl _, wf_of_subs_eq rfl rfl hw⟩
    · rw [if_neg h2]
      by_cases h3 : ev.processing_status = .processed ∨ ev.processing_status = .ignored
      · rw [if_pos h3]
        exact ⟨subs_mono_refl _, wf_of_subs_eq rfl rfl hw⟩
      · rw [if_neg h3]
        by_cases h4 : ev.processing_status = .failed
        · rw [if_pos h4]
          cases hd : dispatch_event now st ev with
          | ok p =>
            obtain ⟨st2, ev2⟩ := p
            dsimp only []
            have hstep := dispatch_subs_step now st ev st2 ev2 hd hw
            exact ⟨hstep.1, wf_of_subs_eq rfl rfl hstep.2⟩
          | error e =>
            obtain ⟨st2, err⟩ := e
            dsimp only []
            have hfr := dispatch_event_error now st ev st2 err hd
            subst hfr
            exact ⟨subs_mono_refl _, wf_of_subs_eq rfl rfl hw⟩
        · rw [if_neg h4]
          exact ⟨subs_mono_refl _, hw⟩

/-- The whole webhook-processing path is a monotone,
well-formedness-preserving step. -/
theorem process_webhook_subs (now : Int) (st : AppState) (provider : String)
    (w : WebhookEventIn) (v : VerifiedWebhookData) (hw : wf_subs st) :
    subs_mono st.subscriptions (outcome_state (process_webhook now st provider w v)).subscriptions ∧
    wf_subs (outcome_state (process_webhook now st provider w v)) := by
  unfold process_webhook
  cases hex : find_existing_event st provider w.event_id with
  | some existing =>
    dsimp only []
    exact handle_existing_event_subs now st existing v hw
  | none =>
    dsimp only []
    have hwi : wf_subs (insert_event st (fresh_event st provider w v)) :=
      wf_of_subs_eq rfl rfl hw
    cases hd : dispatch_event now (insert_event st (fresh_event st provider w v))
        (fresh_event st provider w v) with
    | ok p =>
      obtain ⟨st2, ev2⟩ := p
      dsimp only [outcome_state]
      have hstep := dispatch_subs_step now _ _ st2 ev2 hd hwi
      exact ⟨by simpa using hstep.1, wf_of_subs_eq (by simp) (by simp) hstep.2⟩
    | error e =>
      obtain ⟨st2, err⟩ := e
      dsimp only []
      have hfr := dispatch_event_error now _ _ st2 err hd
      subst hfr
      exact ⟨subs_mono_refl _, wf_of_subs_eq rfl rfl hw⟩

/-- One retry-sweep step is monotone and well-formedness-preserving. -/
theorem retry_one_subs (now : Int) (st : AppState) (e : WebhookEvent)
    (hw : wf_subs st) :
    subs_mono st.subscriptions (retry_one now st e).subscriptions ∧
    wf_subs (retry_one now st e) := by
  unfold retry_one
  cases hd : dispatch_event now st e with
  | ok p =>
    obtain ⟨st2, ev2⟩ := p
    dsimp only []
    have hstep := dispatch_subs_step now st e st2 ev2 hd hw
    exact ⟨by simpa using hstep.1, wf_of_subs_eq (by simp) (by simp) hstep.2⟩
  | error err =>
    obtain ⟨st2, msg⟩ := err
    dsimp only []
    have hfr := dispatch_event_error now st e st2 msg hd
    subst hfr
    exact ⟨subs_mono_refl _, wf_of_subs_eq rfl rfl hw⟩

/-- Folding retry-sweep steps is monotone and well-formedness-
preserving. -/
theorem foldl_retry_subs (now : Int) (l : List WebhookEvent) (st : AppState)
    (hw : wf_subs st) :
    subs_mono st.subscriptions ((l.foldl (retry_one now) st).subscriptions) ∧
    wf_subs (l.foldl (retry_one now) st) := by
  induction l generalizing st with
  | nil => exact ⟨subs_mono_refl _, hw⟩
  | cons e tail ih =>
    have h1 := retry_one_subs now st e hw
    have h2 := ih (retry_one now st e) h1.2
    exact ⟨subs_mono_trans h1.1 h2.1, h2.2⟩

/-- Every operation is a monotone, well-formedness-preserving step on the
subscription table. -/
theorem apply_op_subs (op : Op) (st : AppState) (hw : wf_subs st) :
    subs_mono st.subscriptions (apply_op op st).subscriptions ∧
    wf_subs (apply_op op st) := by
  cases op with
  | webhook now p w v =>
    show subs_mono st.subscriptions (process_webhook_commit now st p w v).subscriptions ∧
      wf_subs (process_webhook_commit now st p w v)
    rw [process_webhook_commit_eq]
    exact process_webhook_subs now st p w v hw
  | createSub now input =>
    show subs_mono st.subscriptions
        ((match create_subscription now st input with
          | .ok st2 => st2
          | .error _ => st)).subscriptions ∧
      wf_subs (match create_subscription now st input with
        | .ok st2 => st2
        | .error _ => st)
    cases h : create_subscription now st input with
    | ok st2 =>
      obtain ⟨_, _, _, _, snew, hsubs, hsid, hnext⟩ := create_subscription_ok_shape now st input st2 h
      dsimp only []
      constructor
      · rw [hsubs]
        exact subs_mono_append _ _
      · constructor
        · rw [hsubs, List.map_append]
          apply List.Nodup.append hw.1 (by simp)
          intro x hx hx2
          simp only [List.map_cons, List.map_nil, List.mem_singleton] at hx2
          obtain ⟨t, ht, hts⟩ := List.mem_map.1 hx
          rw [hx2, hsid] at hts
          exact absurd hts (Nat.ne_of_lt (hw.2 t ht))
        · intro t ht
          rw [hsubs] at ht
          rcases List.mem_append.1 ht with hmem | hmem
          · rw [hnext]
            exact Nat.lt_succ_of_lt (hw.2 t hmem)
          · rw [List.mem_singleton.1 hmem, hsid, hnext]
            exact Nat.lt_succ_self _
    | error e =>
      dsimp only []
      exact ⟨subs_mono_refl _, hw⟩
  | cancelAtPeriodEnd now sub_id flag =>
    show subs_mono st.subscriptions (set_cancel_at_period_end now st sub_id flag).subscriptions ∧
      wf_subs (set_cancel_at_period_end now st sub_id flag)
    unfold set_cancel_at_period_end
    cases hf : st.subscriptions.find? (fun s => decide (s.id = sub_id)) with
    | none =>
      dsimp only []
      exact ⟨subs_mono_refl _, hw⟩
    | some sub =>
      dsimp only []
      have hmem := List.mem_of_find?_eq_some hf
      have hup := map_update_mono st.subscriptions sub
        { sub with cancel_at_period_end := flag, updated_at := now } hmem rfl (le_refl _) hw.1
      constructor
      · exact hup.1
      · exact wf_of_ids_eq (by exact hup.2) (by rfl) hw
  | graceSweep now =>
    have hup := map_pointwise_mono st.subscriptions (grace_update now (now - 86400))
      (grace_update_id now (now - 86400))
      (fun t _ => le_of_eq (grace_update_cpe now (now - 86400) t).symm)
    exact ⟨hup.1, wf_of_ids_eq hup.2 rfl hw⟩
  | expireSweep now =>
    have hup := map_pointwise_mono st.subscriptions (expire_update now)
      (expire_update_id now)
      (fun t _ => le_of_eq (expire_update_cpe now t).symm)
    exact ⟨hup.1, wf_of_ids_eq hup.2 rfl hw⟩
  | retrySweep now limit =>
    exact foldl_retry_subs now (find_retry_candidates now st limit) st hw
  | reprocess now event_id =>
    show subs_mono st.subscriptions (reprocess_webhook_event now st event_id).subscriptions ∧
      wf_subs (reprocess_webhook_event now st event_id)
    unfold reprocess_webhook_event
    rcases get_webhook_event_rows st event_id with _ | ⟨e, _ | ⟨f, rest⟩⟩
    · exact ⟨subs_mono_refl _, hw⟩
    · exact retry_one_subs now st e hw
    · exact ⟨subs_mono_refl _, hw⟩

/-! Helpers for the idempotent-delivery analysis. -/

/-- Storing an updated copy of the last inserted event rewrites exactly
that row, provided the earlier rows have different keys. -/
theorem map_store_append (l : List WebhookEvent) (a a2 : WebhookEvent)
    (hid : a2.id = a.id) (hl : ∀ t ∈ l, t.id ≠ a2.id) :
    (l ++ [a]).map (fun t => if t.id = a2.id then a2 else t) = l ++ [a2] := by
  rw [List.map_append]
  congr 1
  · calc l.map (fun t => if t.id = a2.id then a2 else t)
        = l.map id := List.map_congr_left (fun t ht => if_neg (hl t ht))
      _ = l := List.map_id l
  · simp [hid]

/-- Search in a table whose prefix has no match reduces to the appended
row. -/
theorem find?_append_singleton {α : Type} (l : List α) (a : α) (p : α → Bool)
    (h : ∀ x ∈ l, ¬ p x = true) :
    (l ++ [a]).find? p = if p a then some a else none := by
  induction l with
  | nil =>
    simp only [List.nil_append]
    cases hpa : p a
    · rw [List.find?_cons_of_neg _ (by simp [hpa])]
      simp [hpa]
    · rw [List.find?_cons_of_pos _ hpa]
      simp [hpa]
  | cons x xs ih =>
    have hx : p x = false := by simpa using h x (List.mem_cons_self x xs)
    rw [List.cons_append, List.find?_cons_of_neg _ (by simp [hx])]
    exact ih (fun y hy => h y (List.mem_cons_of_mem x hy))

/-- Bumping the replay counter once more is one more idempotent replay. -/
theorem bump_replayed_replayed (st : AppState) (n : Nat) :
    bump_replayed (replayed_state st n) = replayed_state st (n + 1) := rfl

/-- C6.  For every exception during dispatch, `_mark_failed` performs
exactly the documented updates: `attempt_count` is incremented,
`next_retry_at = now + min(300 × attempt_count, 3600)` seconds using the
incremented count, `needs_attention = (attempt_count ≥ 3)`,
`processing_status = failed`, `processed_at = now`, `error_message` is the
reason — and no other field of the event changes. -/
theorem C6_mark_failed_updates (now : Int) (ev : WebhookEvent) (msg : String) :
    (mark_failed now ev msg).attempt_count = ev.attempt_count + 1 ∧
    (mark_failed now ev msg).next_retry_at =
      some (now + min (300 * ((ev.attempt_count : Int) + 1)) 3600) ∧
    ((mark_failed now ev msg).needs_attention = true ↔ 3 ≤ ev.attempt_count + 1) ∧
    (mark_failed now ev msg).processing_status = .failed ∧
    (mark_failed now ev msg).processed_at = some now ∧
    (mark_failed now ev msg).error_message = some msg ∧
    (mark_failed now ev msg).id = ev.id ∧
    (mark_failed now ev msg).provider = ev.provider ∧
    (mark_failed now ev msg).event_id = ev.event_id ∧
    (mark_failed now ev msg).event_type = ev.event_type ∧
    (mark_failed now ev msg).payload_raw = ev.payload_raw ∧
    (mark_failed now ev msg).signature = ev.signature ∧
    (mark_failed now ev msg).signature_timestamp = ev.signature_timestamp := by
  refine ⟨rfl, ?_, ?_, rfl, rfl, rfl, rfl, rfl, rfl, rfl, rfl, rfl, rfl⟩
  · simp [mark_failed]
  · simp [mark_failed]

/-- C4.  Re-delivery of an already-stored event whose presented timestamp
differs from the stored `signature_timestamp`, or whose presented
signature differs from the stored signature, commits the stored event
marked failed with the matching descriptive message and raises
ReplayAttack. -/
theorem C4_replay_mismatch_marks_failed (now : Int) (st : AppState) (ev : WebhookEvent)
    (verified : VerifiedWebhookData) (msg : String)
    (h : (verified.timestamp ≠ ev.signature_timestamp ∧ msg = "replay timestamp mismatch") ∨
         (verified.timestamp = ev.signature_timestamp ∧ verified.signature ≠ ev.signature ∧
           msg = "replay signature mismatch")) :
    handle_existing_event now st ev verified =
      .error (store_event (bump_failed st) (mark_failed now ev msg), .replayAttack msg) ∧
    (mark_failed now ev msg).processing_status = .failed ∧
    (mark_failed now ev msg).error_message = some msg := by
  rcases h with ⟨hne, rfl⟩ | ⟨heq, hne, rfl⟩
  · simp [handle_existing_event, hne, mark_failed]
  · simp [handle_existing_event, heq, hne, mark_failed]

/-- Witness for C4 at a concrete mismatching re-delivery. -/
theorem C4_replay_mismatch_marks_failed_witness :
    handle_existing_event 60 fix_active_state
        { id := 1, provider := "test", event_id := "evt_w", event_type := "payment.succeeded",
          payload_raw := .notObject, signature := "sig1", signature_timestamp := 50,
          processed_at := some 55, attempt_count := 1, next_retry_at := none,
          needs_attention := false, processing_status := .processed, error_message := none }
        ⟨.notObject, "sig1", 51⟩ =
      .error (store_event (bump_failed fix_active_state)
          (mark_failed 60
            { id := 1, provider := "test", event_id := "evt_w",
              event_type := "payment.succeeded", payload_raw := .notObject,
              signature := "sig1", signature_timestamp := 50, processed_at := some 55,
              attempt_count := 1, next_retry_at := none, needs_attention := false,
              processing_status := .processed, error_message := none }
            "replay timestamp mismatch"),
        .replayAttack "replay timestamp mismatch") :=
  (C4_replay_mismatch_marks_failed 60 fix_active_state _ _ "replay timestamp mismatch"
    (Or.inl ⟨by decide, rfl⟩)).1

/-- C9.  A registry loaded from a `WEBHOOK_SECRETS_JSON` value that parses
as a JSON object has every value coerced to a plain string, hence every
provider is in simple mode and candidate resolution returns the empty list
or a one-element list; the rotation-mode branch never applies. -/
theorem C9_env_registry_simple_mode (j : Json) (reg : List (String × String))
    (h : load_webhook_secrets j = .ok reg) (provider : String) (key_id : Option String) :
    get_secret_candidates (env_registry reg) provider key_id = [] ∨
    ∃ s, get_secret_candidates (env_registry reg) provider key_id = [s] := by
  clear h
  unfold get_secret_candidates env_registry
  rw [List.find?_map]
  cases hf : reg.find?
      ((fun kv => decide (kv.1 = provider)) ∘ fun kv => (kv.1, SecretCfg.simple kv.2)) with
  | none => exact Or.inl rfl
  | some kv => exact Or.inr ⟨kv.2, rfl⟩

/-- Witness for C9 at a concrete environment value holding a rotation-style
nested object: the loader flattens it to a string, and resolution yields a
single candidate. -/
theorem C9_env_registry_simple_mode_witness :
    load_webhook_secrets (.obj [("stripe", .str "sk_live"), ("mp", .obj [])]) =
      .ok [("stripe", "sk_live"), ("mp", "\x7b...\x7d")] ∧
    (get_secret_candidates (env_registry [("stripe", "sk_live"), ("mp", "\x7b...\x7d")])
        "stripe" (some "kid") = [] ∨
      ∃ s, get_secret_candidates (env_registry [("stripe", "sk_live"), ("mp", "\x7b...\x7d")])
        "stripe" (some "kid") = [s]) :=
  ⟨rfl, C9_env_registry_simple_mode (.obj [("stripe", .str "sk_live"), ("mp", .obj [])])
    [("stripe", "sk_live"), ("mp", "\x7b...\x7d")] rfl "stripe" (some "kid")⟩

/-- C1.  Counterexample to the claim that a stale delivery ends with
`processing_status = ignored`: at this stale `payment.succeeded` delivery
the handler sets `ignored` and `error_message = "stale event ignored"`, the
subscription is left unchanged and no Payment row is appended, but
`dispatch_event` then overwrites the status with `processed`, so the
returned event and the stored row end the dispatch as `processed`. -/
theorem C1_stale_status_overwritten :
    (process_webhook 60 fix_active_state "test" c1_webhook c1_verified).toOption.map
        (fun r => (r.2.processing_status, r.2.error_message, r.1.subscriptions, r.1.payments,
                   r.1.events.map (fun e => e.processing_status))) =
      some (WebhookProcessingStatus.processed, some "stale event ignored",
            fix_active_state.subscriptions, ([] : List Payment),
            [WebhookProcessingStatus.processed]) := by
  rfl

/-- C2.  Counterexample to the canceled-subscription invariant: the grace
sweep cancels the past_due subscription (with `canceled_at` set and
`access_revoked = true`, so the invariant holds after the sweep), and a
subsequent non-stale `payment.succeeded` delivery commits the subscription
still `canceled` but with `canceled_at = none` and
`access_revoked = false`. -/
theorem C2_canceled_invariant_broken :
    (c2_canceled_state.subscriptions.map
        (fun s => (s.status, s.canceled_at, s.access_revoked))) =
      [(SubscriptionStatus.canceled, some (100000 : Int), true)] ∧
    ((apply_op (Op.webhook 100100 "test" c2_webhook c2_verified) c2_canceled_state).subscriptions.map
        (fun s => (s.status, s.canceled_at, s.access_revoked))) =
      [(SubscriptionStatus.canceled, none, false)] := by
  exact ⟨rfl, rfl⟩

/-- C3.  On a first-time delivery whose handler raises, the committed
state keeps the subscriptions, payments and customers exactly as they
were — every raise in the dispatch path happens before any session
mutation, so the commit after `_mark_failed` persists no handler side
effects — and the stored event row is recorded as failed.  (The source
performs no rollback; the property holds because nothing was mutated.) -/
theorem C3_failed_first_delivery_no_side_effects (now : Int) (st : AppState)
    (provider : String) (w : WebhookEventIn) (v : VerifiedWebhookData)
    (st2 : AppState) (err : ProcessError)
    (hfresh : find_existing_event st provider w.event_id = none)
    (h : process_webhook now st provider w v = .error (st2, err)) :
    st2.subscriptions = st.subscriptions ∧ st2.payments = st.payments ∧
    st2.customers = st.customers ∧
    ∃ e ∈ st2.events, e.provider = provider ∧ e.event_id = w.event_id ∧
      e.processing_status = .failed := by
  unfold process_webhook at h
  rw [hfresh] at h
  dsimp only [] at h
  cases hd : dispatch_event now (insert_event st (fresh_event st provider w v))
      (fresh_event st provider w v) with
  | ok p =>
    obtain ⟨st3, ev3⟩ := p
    rw [hd] at h
    dsimp only [] at h
    simp at h
  | error e =>
    obtain ⟨st3, err3⟩ := e
    rw [hd] at h
    dsimp only [] at h
    simp only [Except.error.injEq, Prod.mk.injEq] at h
    obtain ⟨h1, _⟩ := h
    have hst3 := dispatch_event_error _ _ _ _ _ hd
    rw [hst3] at h1
    rw [← h1]
    refine ⟨by simp [insert_event], by simp [insert_event], by simp [insert_event], ?_⟩
    refine ⟨mark_failed now (fresh_event st provider w v) err3.message, ?_, rfl, rfl, rfl⟩
    simp only [store_event_events]
    apply List.mem_map.2
    refine ⟨fresh_event st provider w v, ?_, ?_⟩
    · have : (insert_event st (fresh_event st provider w v)).events =
          st.events ++ [fresh_event st provider w v] := rfl
      rw [show (bump_failed (insert_event st (fresh_event st provider w v))).events =
          st.events ++ [fresh_event st provider w v] from rfl]
      simp
    · simp [mark_failed]

/-- Witness for C3: on the empty store, a `payment.succeeded` delivery for
an unknown customer fails, leaving subscriptions, payments and customers
empty and recording the event as failed. -/
theorem C3_failed_first_delivery_no_side_effects_witness :
    (outcome_state (process_webhook 10 empty_state "test" c5_webhook c5_verified)).subscriptions =
        empty_state.subscriptions ∧
    (outcome_state (process_webhook 10 empty_state "test" c5_webhook c5_verified)).payments =
        empty_state.payments ∧
    (outcome_state (process_webhook 10 empty_state "test" c5_webhook c5_verified)).customers =
        empty_state.customers ∧
    ∃ e ∈ (outcome_state (process_webhook 10 empty_state "test" c5_webhook c5_verified)).events,
      e.provider = "test" ∧ e.event_id = c5_webhook.event_id ∧
      e.processing_status = .failed :=
  C3_failed_first_delivery_no_side_effects 10 empty_state "test" c5_webhook c5_verified
    (outcome_state (process_webhook 10 empty_state "test" c5_webhook c5_verified))
    (.dispatchFailed (.invalidPayload "provider_customer_id not found"))
    (by decide) rfl

/-- C5 counterexample.  The state reached from the empty store by the
`c5_ops` trace holds an event with `attempt_count = 3` and
`needs_attention = false`: the biconditional `needs_attention = true iff
attempt_count ≥ 3` fails on a reachable state. -/
theorem C5_needs_attention_iff_refuted :
    ¬ (∀ e ∈ c5_final.events, (e.needs_attention = true ↔ 3 ≤ e.attempt_count)) := by
  decide

/-- C5 amended.  In every state, `needs_attention = true` implies
`attempt_count ≥ 3` and this implication is preserved by every operation
(the converse direction fails: a successful re-dispatch clears
`needs_attention` while `attempt_count` stays put); and every row with
`needs_attention = true` is excluded from the retry sweep's candidate
selection. -/
theorem C5_needs_attention_inv_amended :
    (∀ (op : Op) (st : AppState), events_attention_inv st →
        events_attention_inv (apply_op op st)) ∧
    (∀ (now : Int) (st : AppState) (limit : Nat) (e : WebhookEvent),
        e ∈ find_retry_candidates now st limit → e.needs_attention = false) := by
  constructor
  · intro op st hst
    cases op with
    | webhook now p w v =>
      show events_attention_inv (process_webhook_commit now st p w v)
      rw [process_webhook_commit_eq]
      exact process_webhook_attention now st p w v hst
    | createSub now input =>
      show events_attention_inv
        (match create_subscription now st input with
         | .ok st2 => st2
         | .error _ => st)
      cases h : create_subscription now st input with
      | ok st2 =>
        exact events_attention_of_eq (create_subscription_ok_shape now st input st2 h).1 hst
      | error e => exact hst
    | cancelAtPeriodEnd now sub_id flag =>
      refine events_attention_of_eq ?_ hst
      show (set_cancel_at_period_end now st sub_id flag).events = st.events
      unfold set_cancel_at_period_end
      split
      · rfl
      · rfl
    | graceSweep now => exact events_attention_of_eq rfl hst
    | expireSweep now => exact events_attention_of_eq rfl hst
    | retrySweep now limit =>
      exact foldl_retry_attention now (find_retry_candidates now st limit) st hst
    | reprocess now event_id => exact reprocess_attention now st event_id hst
  · intro now st limit e he
    have hf : e ∈ st.events.filter (retry_candidate now) := List.mem_of_mem_take he
    have hc := List.of_mem_filter hf
    unfold retry_candidate at hc
    simp only [Bool.and_eq_true, Bool.not_eq_true'] at hc
    exact hc.1.2

/-- Witness for the amended C5 at a concrete state and operation. -/
theorem C5_needs_attention_inv_amended_witness :
    events_attention_inv (apply_op (Op.graceSweep 5) empty_state) :=
  C5_needs_attention_inv_amended.1 (Op.graceSweep 5) empty_state
    (fun e he => absurd he (List.not_mem_nil e))

/-- C7.  Over every sequence of operations (webhook deliveries, sweeps,
subscription creation, cancel-at-period-end, admin reprocess) starting
from a store with well-formed subscription keys, the subscription table
evolves monotonically: rows are only appended, each surviving row keeps
its primary key, and no operation ever replaces `current_period_end` with
a strictly earlier value. -/
theorem C7_current_period_end_monotone (ops : List Op) (st : AppState)
    (hw : wf_subs st) :
    subs_mono st.subscriptions (apply_ops ops st).subscriptions := by
  induction ops generalizing st with
  | nil => exact subs_mono_refl _
  | cons op tail ih =>
    have h1 := apply_op_subs op st hw
    have h2 := ih (apply_op op st) h1.2
    exact subs_mono_trans h1.1 h2

/-- Witness for C7 on a concrete trace: a subscription is created, paid
(period end 100), dunned and grace-canceled, and its period end never
moves backwards. -/
theorem C7_current_period_end_monotone_witness :
    subs_mono empty_state.subscriptions (apply_ops c5_ops empty_state).subscriptions :=
  C7_current_period_end_monotone c5_ops empty_state
    ⟨List.nodup_nil, fun s hs => absurd hs (List.not_mem_nil s)⟩

/-- Search is unchanged under a predicate agreeing on the members. -/
theorem find?_congr_mem {α : Type} (l : List α) (p q : α → Bool)
    (h : ∀ x ∈ l, p x = q x) : l.find? p = l.find? q := by
  induction l with
  | nil => rfl
  | cons a tail ih =>
    have hpa : p a = q a := h a (List.mem_cons_self a tail)
    cases hqa : q a
    · rw [List.find?_cons_of_neg _ (by simp [hpa, hqa]),
        List.find?_cons_of_neg _ (by simp [hqa])]
      exact ih (fun x hx => h x (List.mem_cons_of_mem a hx))
    · rw [List.find?_cons_of_pos _ (by simp [hpa, hqa]),
        List.find?_cons_of_pos _ (by simp [hqa])]

/-- Search after an in-place row update keyed like the found row returns
the updated row, provided keys are distinct and the updated row still
matches. -/
theorem find?_update_map (l : List Subscription) (sub s2 : Subscription)
    (p : Subscription → Bool) (hfind : l.find? p = some sub)
    (hid : s2.id = sub.id) (hnd : (l.map (fun s => s.id)).Nodup)
    (hp2 : p s2 = true) :
    (l.map (fun t => if t.id = s2.id then s2 else t)).find? p = some s2 := by
  rw [List.find?_map]
  have hcong : ∀ x ∈ l, (p ∘ fun t => if t.id = s2.id then s2 else t) x = p x := by
    intro x hx
    show p (if x.id = s2.id then s2 else x) = p x
    by_cases hxid : x.id = s2.id
    · have hx_eq : x = sub :=
        List.inj_on_of_nodup_map hnd hx (List.mem_of_find?_eq_some hfind)
          (by rw [hxid, hid])
      rw [if_pos hxid, hp2, hx_eq, List.find?_some hfind]
    · rw [if_neg hxid]
  rw [find?_congr_mem l _ p hcong, hfind]
  show some (if sub.id = s2.id then s2 else sub) = some s2
  rw [if_pos hid.symm]

/-- C8.  A first delivery of a resolving, non-stale `payment.succeeded`
event processes successfully, leaving exactly one event row for its
`(provider, event_id)` and exactly one new Payment row; every further
delivery with the identical body, signature and timestamp only increments
the `webhook_replayed` counter and returns the stored event unchanged —
in particular the subscriptions, payments and events of the store are not
touched again. -/
theorem C8_idempotent_delivery (now : Int) (st : AppState) (provider : String)
    (w : WebhookEventIn) (v : VerifiedWebhookData) (pd : PayloadData)
    (pcid psid : String) (cust : Customer) (sub : Subscription)
    (hfresh : find_existing_event st provider w.event_id = none)
    (hwe : ∀ e ∈ st.events, e.id < st.next_event_id)
    (hpd : v.raw_body = .object pd)
    (htype : w.event_type = "payment.succeeded")
    (hpc : pd.provider_customer_id = some pcid)
    (hpsid : pd.provider_subscription_id = some psid)
    (hcust : st.customers.find? (fun c => decide (c.provider_customer_id = some pcid)) =
      some cust)
    (hsub : st.subscriptions.find? (fun s => decide (s.provider_subscription_id = psid)) =
      some sub)
    (hown : sub.customer_id = cust.id)
    (hstale : ¬ parse_period_end now pd.current_period_end < sub.current_period_end) :
    ∃ st1 ev1,
      process_webhook now st provider w v = .ok (st1, ev1) ∧
      ev1.processing_status = .processed ∧
      st1.events.countP
        (fun e => decide (e.provider = provider ∧ e.event_id = w.event_id)) = 1 ∧
      st1.payments.length = st.payments.length + 1 ∧
      ∀ (now2 : Int) (n : Nat),
        process_webhook now2 (replayed_state st1 n) provider w v =
          .ok (replayed_state st1 (n + 1), ev1) := by
  have hh : handle_payment_succeeded now (insert_event st (fresh_event st provider w v))
      (fresh_event st provider w v) pd =
      .ok (add_payment
            (update_subscription (insert_event st (fresh_event st provider w v))
              (advance_subscription now (parse_period_end now pd.current_period_end) sub))
            (handler_payment now .approved cust sub (fresh_event st provider w v) pd),
          fresh_event st provider w v) := by
    unfold handle_payment_succeeded
    rw [hpc, hpsid]
    dsimp only []
    rw [show (insert_event st (fresh_event st provider w v)).customers = st.customers from rfl,
      hcust]
    dsimp only []
    rw [show (insert_event st (fresh_event st provider w v)).subscriptions = st.subscriptions
      from rfl, hsub]
    dsimp only []
    rw [if_neg (fun hne => hne hown), if_neg hstale]
  have hd : dispatch_event now (insert_event st (fresh_event st provider w v))
      (fresh_event st provider w v) =
      .ok (add_payment
            (update_subscription (insert_event st (fresh_event st provider w v))
              (advance_subscription now (parse_period_end now pd.current_period_end) sub))
            (handler_payment now .approved cust sub (fresh_event st provider w v) pd),
          processed_event now (fresh_event st provider w v)) := by
    unfold dispatch_event
    conv_lhs => rw [show (fresh_event st provider w v).payload_raw = RawPayload.object pd
      from hpd]
    dsimp only []
    rw [if_pos (show (fresh_event st provider w v).event_type = "payment.succeeded"
      from htype)]
    rw [hh]
  have hrun : process_webhook now st provider w v =
      .ok (success_commit now st provider w v pd cust sub, success_event now st provider w v) := by
    unfold process_webhook
    rw [hfresh]
    dsimp only []
    rw [hd]
    rfl
  have hevents : (success_commit now st provider w v pd cust sub).events =
      st.events ++ [success_event now st provider w v] := by
    unfold success_commit success_event
    rw [store_event_events, bump_outcome_events]
    show (st.events ++ [fresh_event st provider w v]).map _ = _
    exact map_store_append st.events (fresh_event st provider w v) _ rfl
      (fun t ht => Nat.ne_of_lt (hwe t ht))
  refine ⟨_, _, hrun, rfl, ?_, ?_, ?_⟩
  · rw [hevents, List.countP_append]
    rw [List.countP_eq_zero.2 (List.find?_eq_none.1 hfresh)]
    simp only [List.countP_cons, List.countP_nil, Nat.zero_add]
    rw [if_pos (decide_eq_true ⟨rfl, rfl⟩)]
  · show (store_event _ _).payments.length = _
    rw [store_event_payments, bump_outcome_payments]
    show (st.payments ++
      [handler_payment now .approved cust sub (fresh_event st provider w v) pd]).length = _
    simp
  · intro now2 n
    have hfind2 : find_existing_event
        (replayed_state (success_commit now st provider w v pd cust sub) n) provider
        w.event_id = some (success_event now st provider w v) := by
      unfold find_existing_event
      rw [show (replayed_state (success_commit now st provider w v pd cust sub) n).events =
        (success_commit now st provider w v pd cust sub).events from rfl, hevents]
      rw [find?_append_singleton _ _ _ (List.find?_eq_none.1 hfresh)]
      rw [if_pos (decide_eq_true ⟨rfl, rfl⟩)]
    unfold process_webhook
    rw [hfind2]
    dsimp only []
    unfold handle_existing_event
    rw [if_neg (fun hne => hne rfl)]
    rw [if_neg (fun hne => hne rfl)]
    rw [if_pos (show (success_event now st provider w v).processing_status =
        WebhookProcessingStatus.processed ∨
        (success_event now st provider w v).processing_status =
        WebhookProcessingStatus.ignored from Or.inl rfl)]
    rfl

/-- Witness for C8: a concrete non-stale delivery against
`fix_active_state`, with its idempotent replay instantiated at `n = 1`. -/
theorem C8_idempotent_delivery_witness :
    ∃ st1 ev1,
      process_webhook 70 fix_active_state "test" c8_webhook c8_verified = .ok (st1, ev1) ∧
      ev1.processing_status = .processed ∧
      st1.events.countP
        (fun e => decide (e.provider = "test" ∧ e.event_id = c8_webhook.event_id)) = 1 ∧
      st1.payments.length = fix_active_state.payments.length + 1 ∧
      ∀ (now2 : Int) (n : Nat),
        process_webhook now2 (replayed_state st1 n) "test" c8_webhook c8_verified =
          .ok (replayed_state st1 (n + 1), ev1) :=
  C8_idempotent_delivery 70 fix_active_state "test" c8_webhook c8_verified c8_payload
    "cus_1" "sub_1" fix_customer fix_active_sub
    (by decide) (by decide) rfl rfl rfl rfl (by decide) (by decide) (by decide) (by decide)

/-- C10.  The admin reprocess path re-dispatches a stored event without
looking at its `processing_status`: after an event was processed
successfully (appending one Payment row), reprocessing it resolves the
same customer and subscription, passes the stale guard (the stored period
end now equals the payload's), and appends a second Payment row with the
same `provider_payment_id` — a single `(provider, event_id)` yields more
than one Payment row. -/
theorem C10_reprocess_duplicates_payment (now now2 : Int) (st : AppState)
    (provider : String) (w : WebhookEventIn) (v : VerifiedWebhookData) (pd : PayloadData)
    (pcid psid : String) (cust : Customer) (sub : Subscription) (t : Int)
    (hfresh : find_existing_event st provider w.event_id = none)
    (hwe : ∀ e ∈ st.events, e.id < st.next_event_id)
    (huniq : ∀ e ∈ st.events, e.event_id ≠ w.event_id)
    (hnd : (st.subscriptions.map (fun s => s.id)).Nodup)
    (hpd : v.raw_body = .object pd)
    (htype : w.event_type = "payment.succeeded")
    (hpc : pd.provider_customer_id = some pcid)
    (hpsid : pd.provider_subscription_id = some psid)
    (hpe : pd.current_period_end = .num t)
    (hcust : st.customers.find? (fun c => decide (c.provider_customer_id = some pcid)) =
      some cust)
    (hsub : st.subscriptions.find? (fun s => decide (s.provider_subscription_id = psid)) =
      some sub)
    (hown : sub.customer_id = cust.id)
    (hstale : ¬ parse_period_end now pd.current_period_end < sub.current_period_end) :
    ∃ st1 ev1,
      process_webhook now st provider w v = .ok (st1, ev1) ∧
      ev1.processing_status = .processed ∧
      st1.payments.length = st.payments.length + 1 ∧
      (reprocess_webhook_event now2 st1 w.event_id).payments.map
          (fun p => p.provider_payment_id) =
        st.payments.map (fun p => p.provider_payment_id) ++
          [py_or_str pd.payment_id w.event_id, py_or_str pd.payment_id w.event_id] := by
  have hh : handle_payment_succeeded now (insert_event st (fresh_event st provider w v))
      (fresh_event st provider w v) pd =
      .ok (add_payment
            (update_subscription (insert_event st (fresh_event st provider w v))
              (advance_subscription now (parse_period_end now pd.current_period_end) sub))
            (handler_payment now .approved cust sub (fresh_event st provider w v) pd),
          fresh_event st provider w v) := by
    unfold handle_payment_succeeded
    rw [hpc, hpsid]
    dsimp only []
    rw [show (insert_event st (fresh_event st provider w v)).customers = st.customers from rfl,
      hcust]
    dsimp only []
    rw [show (insert_event st (fresh_event st provider w v)).subscriptions = st.subscriptions
      from rfl, hsub]
    dsimp only []
    rw [if_neg (fun hne => hne hown), if_neg hstale]
  have hd : dispatch_event now (insert_event st (fresh_event st provider w v))
      (fresh_event st provider w v) =
      .ok (add_payment
            (update_subscription (insert_event st (fresh_event st provider w v))
              (advance_subscription now (parse_period_end now pd.current_period_end) sub))
            (handler_payment now .approved cust sub (fresh_event st provider w v) pd),
          processed_event now (fresh_event st provider w v)) := by
    unfold dispatch_event
    conv_lhs => rw [show (fresh_event st provider w v).payload_raw = RawPayload.object pd
      from hpd]
    dsimp only []
    rw [if_pos (show (fresh_event st provider w v).event_type = "payment.succeeded"
      from htype)]
    rw [hh]
  have hrun : process_webhook now st provider w v =
      .ok (success_commit now st provider w v pd cust sub,
           success_event now st provider w v) := by
    unfold process_webhook
    rw [hfresh]
    dsimp only []
    rw [hd]
    rfl
  have hevents : (success_commit now st provider w v pd cust sub).events =
      st.events ++ [success_event now st provider w v] := by
    unfold success_commit success_event
    rw [store_event_events, bump_outcome_events]
    show (st.events ++ [fresh_event st provider w v]).map _ = _
    exact map_store_append st.events (fresh_event st provider w v) _ rfl
      (fun t2 ht2 => Nat.ne_of_lt (hwe t2 ht2))
  have hcusts : (success_commit now st provider w v pd cust sub).customers = st.customers := by
    unfold success_commit
    rw [store_event_customers, bump_outcome_customers]
    rfl
  have hsubs1 : (success_commit now st provider w v pd cust sub).subscriptions =
      st.subscriptions.map (fun s2 =>
        if s2.id = (advance_subscription now (parse_period_end now pd.current_period_end)
            sub).id
        then advance_subscription now (parse_period_end now pd.current_period_end) sub
        else s2) := by
    unfold success_commit
    rw [store_event_subscriptions, bump_outcome_subscriptions]
    rfl
  have hpays1 : (success_commit now st provider w v pd cust sub).payments =
      st.payments ++
        [handler_payment now .approved cust sub (fresh_event st provider w v) pd] := by
    unfold success_commit
    rw [store_event_payments, bump_outcome_payments]
    rfl
  have hrows : get_webhook_event_rows (success_commit now st provider w v pd cust sub)
      w.event_id = [success_event now st provider w v] := by
    unfold get_webhook_event_rows
    rw [hevents, List.filter_append]
    rw [List.filter_eq_nil_iff.2 (fun e he => by simp [huniq e he])]
    simp [success_event, first_cleared_event, processed_event, fresh_event]
  have hfind2 : (success_commit now st provider w v pd cust sub).subscriptions.find?
      (fun s => decide (s.provider_subscription_id = psid)) =
      some (advance_subscription now (parse_period_end now pd.current_period_end) sub) := by
    have hfs := List.find?_some hsub
    have hpsid_sub : sub.provider_subscription_id = psid := of_decide_eq_true hfs
    rw [hsubs1]
    exact find?_update_map st.subscriptions sub _ _ hsub rfl hnd (decide_eq_true hpsid_sub)
  have hh2 : handle_payment_succeeded now2 (success_commit now st provider w v pd cust sub)
      (success_event now st provider w v) pd =
      .ok (add_payment
            (update_subscription (success_commit now st provider w v pd cust sub)
              (advance_subscription now2 (parse_period_end now2 pd.current_period_end)
                (advance_subscription now (parse_period_end now pd.current_period_end) sub)))
            (handler_payment now2 .approved cust
              (advance_subscription now (parse_period_end now pd.current_period_end) sub)
              (success_event now st provider w v) pd),
          success_event now st provider w v) := by
    unfold handle_payment_succeeded
    rw [hpc, hpsid]
    dsimp only []
    rw [hcusts, hcust]
    dsimp only []
    rw [hfind2]
    dsimp only []
    rw [if_neg (show ¬ (advance_subscription now (parse_period_end now pd.current_period_end)
        sub).customer_id ≠ cust.id from fun hne => hne hown)]
    rw [if_neg (show ¬ parse_period_end now2 pd.current_period_end <
        (advance_subscription now (parse_period_end now pd.current_period_end)
          sub).current_period_end from by
        rw [show (advance_subscription now (parse_period_end now pd.current_period_end)
          sub).current_period_end = parse_period_end now pd.current_period_end from rfl, hpe]
        exact lt_irrefl _)]
  have hd2 : dispatch_event now2 (success_commit now st provider w v pd cust sub)
      (success_event now st provider w v) =
      .ok (add_payment
            (update_subscription (success_commit now st provider w v pd cust sub)
              (advance_subscription now2 (parse_period_end now2 pd.current_period_end)
                (advance_subscription now (parse_period_end now pd.current_period_end) sub)))
            (handler_payment now2 .approved cust
              (advance_subscription now (parse_period_end now pd.current_period_end) sub)
              (success_event now st provider w v) pd),
          processed_event now2 (success_event now st provider w v)) := by
    unfold dispatch_event
    conv_lhs => rw [show (success_event now st provider w v).payload_raw =
      RawPayload.object pd from hpd]
    dsimp only []
    rw [if_pos (show (success_event now st provider w v).event_type = "payment.succeeded"
      from htype)]
    rw [hh2]
  refine ⟨_, _, hrun, rfl, ?_, ?_⟩
  · show (success_commit now st provider w v pd cust sub).payments.length = _
    rw [hpays1]
    simp
  · unfold reprocess_webhook_event
    rw [hrows]
    dsimp only []
    rw [hd2]
    dsimp only []
    rw [store_event_payments, bump_outcome_payments]
    show ((success_commit now st provider w v pd cust sub).payments ++
        [handler_payment now2 .approved cust
          (advance_subscription now (parse_period_end now pd.current_period_end) sub)
          (success_event now st provider w v) pd]).map _ = _
    rw [hpays1]
    simp [handler_payment, py_or_str, success_event, first_cleared_event, processed_event,
      fresh_event]

/-- Witness for C10: the concrete non-stale delivery of `c8_webhook`
against `fix_active_state` is processed, and its admin reprocess at a
later time appends a second approved Payment row with the same
`provider_payment_id` (`pay_c8`). -/
theorem C10_reprocess_duplicates_payment_witness :
    ∃ st1 ev1,
      process_webhook 70 fix_active_state "test" c8_webhook c8_verified = .ok (st1, ev1) ∧
      ev1.processing_status = .processed ∧
      st1.payments.length = fix_active_state.payments.length + 1 ∧
      (reprocess_webhook_event 99 st1 c8_webhook.event_id).payments.map
          (fun p => p.provider_payment_id) =
        fix_active_state.payments.map (fun p => p.provider_payment_id) ++
          [py_or_str c8_payload.payment_id c8_webhook.event_id,
           py_or_str c8_payload.payment_id c8_webhook.event_id] :=
  C10_reprocess_duplicates_payment 70 99 fix_active_state "test" c8_webhook c8_verified
    c8_payload "cus_1" "sub_1" fix_customer fix_active_sub 2000
    (by decide) (by decide) (by decide) (by decide) rfl rfl rfl rfl rfl
    (by decide) (by decide) (by decide) (by decide)

end EventLedger
